import Mathlib

/-!
Verification development for the Phoenix emergency-beacon repository.

The definitions below are a shallow embedding of the TypeScript sources:

* `packages/beacon-protocol/src/constants.ts` — packet constants and flag bits;
* `packages/beacon-protocol/src/encoder.ts` — `encodeBeaconData`;
* the decoder module — `decodeBeaconData`, `bufferToDeviceId`,
  `hexToBuffer`, `isValidBeaconPacket`;
* `apps/emitter/src/services/DataCollector.ts` — sensor fusion
  (`collectData`, `detectMotion`, `detectFall`, `detectUnstableEnvironment`)
  and `BeaconTransmitter.calculateAdaptiveInterval`;
* `apps/receiver/src/services/BeaconScanner.ts` — `smoothRSSI`,
  `handleBeaconDiscovered`;
* `apps/receiver/src/components/PrecisionFindingView.tsx` — the proximity
  hysteresis state machine.

JavaScript numbers are modelled exactly: finite doubles are rationals, and
the wire serialization of latitude/longitude goes through an explicit
IEEE-754 binary32 round-to-nearest-even model (`f32bitsOfNum`,
`f32valOfBits`), including negative zero, infinities and NaN, which the
decoder can produce from arbitrary bytes.
-/

set_option maxRecDepth 2000

namespace Phoenix

/-- JavaScript `Math.round`: round half toward positive infinity,
`Math.round x = ⌊x + 1/2⌋`. -/
def jsRound (q : ℚ) : ℤ := ⌊q + 1/2⌋

/-- Round a rational to the nearest integer with ties to even, the rounding
used by IEEE-754 binary32 conversion. -/
def rne (q : ℚ) : ℤ :=
  let n := ⌊q⌋
  let f := q - n
  if f < 1/2 then n
  else if 1/2 < f then n + 1
  else if n % 2 = 0 then n else n + 1

/-- The value space of JavaScript numbers as seen through the 4-byte float
fields of the packet: a finite value (rational), negative zero, a signed
infinity, or NaN. -/
inductive JsNum where
  | fin (q : ℚ)
  | negzero
  | inf (neg : Bool)
  | nan
deriving DecidableEq

/-- Exponent-and-mantissa bit pattern (without the sign bit) of the binary32
nearest-even rounding of a positive rational: the result is
`exponentField * 2^23 + mantissaField`, with `255 * 2^23` for overflow to
infinity and `0` for underflow to zero. -/
def f32corePos (m : ℚ) : ℕ :=
  let e : ℤ := max (Int.log 2 m) (-126)
  let n : ℤ := rne (m * (2 : ℚ) ^ ((23 : ℤ) - e))
  if n = 0 then 0
  else if n < 2 ^ 23 then n.toNat
  else
    let e2 : ℤ := if n = 2 ^ 24 then e + 1 else e
    let n2 : ℤ := if n = 2 ^ 24 then 2 ^ 23 else n
    if 127 < e2 then 255 * 2 ^ 23
    else (e2 + 127).toNat * 2 ^ 23 + (n2 - 2 ^ 23).toNat

/-- Full 32-bit pattern written by `Buffer.writeFloatBE` for a JavaScript
number (NaN is written as the canonical quiet NaN `0x7FC00000`). -/
def f32bitsOfNum : JsNum → ℕ
  | .fin q =>
      if q = 0 then 0
      else if 0 < q then f32corePos q
      else 2 ^ 31 + f32corePos (-q)
  | .negzero => 2 ^ 31
  | .inf neg => (if neg then 2 ^ 31 else 0) + 255 * 2 ^ 23
  | .nan => 0x7FC00000

/-- The JavaScript number read back by `Buffer.readFloatBE` from a 32-bit
pattern. -/
def f32valOfBits (b : ℕ) : JsNum :=
  let s : ℕ := b / 2 ^ 31 % 2
  let ef : ℕ := b / 2 ^ 23 % 256
  let mf : ℕ := b % 2 ^ 23
  if ef = 255 then
    if mf = 0 then .inf (s = 1) else .nan
  else
    let mag : ℚ :=
      if ef = 0 then (mf : ℚ) * (2 : ℚ) ^ (-(149 : ℤ))
      else ((2 ^ 23 + mf : ℕ) : ℚ) * (2 : ℚ) ^ ((ef : ℤ) - 150)
    if s = 1 then (if mag = 0 then .negzero else .fin (-mag))
    else .fin mag

/-- Big-endian 4-byte serialization of a 32-bit word. -/
def toBytes4 (w : ℕ) : List ℕ := [w / 2 ^ 24 % 256, w / 2 ^ 16 % 256, w / 2 ^ 8 % 256, w % 256]

/-- Big-endian 2-byte serialization of a 16-bit word. -/
def toBytes2 (w : ℕ) : List ℕ := [w / 2 ^ 8 % 256, w % 256]

/-- Unsigned 16-bit two's-complement image of an `Int16` value, as stored by
`Buffer.writeInt16BE`. -/
def int16ToUNat (v : ℤ) : ℕ := (v % 65536).toNat

/-- Signed value read by `Buffer.readInt16BE` from an unsigned 16-bit word. -/
def readInt16 (u : ℕ) : ℤ := if u < 32768 then u else (u : ℤ) - 65536

/-- Numeric value of one hex digit, lower or upper case
(`Buffer.from(str, 'hex')` accepts both); `none` for a non-hex character. -/
def hexDigitVal (c : Char) : Option ℕ :=
  if 48 ≤ c.toNat ∧ c.toNat ≤ 57 then some (c.toNat - 48)
  else if 97 ≤ c.toNat ∧ c.toNat ≤ 102 then some (c.toNat - 87)
  else if 65 ≤ c.toNat ∧ c.toNat ≤ 70 then some (c.toNat - 55)
  else none

/-- Node `Buffer.from(s, 'hex')`: parse consecutive hex-digit pairs,
truncating at the first invalid digit or a trailing lone character. -/
def hexPairs : List Char → List ℕ
  | c1 :: c2 :: rest =>
    match hexDigitVal c1, hexDigitVal c2 with
    | some hi, some lo => (16 * hi + lo) :: hexPairs rest
    | _, _ => []
  | _ => []

/-- Upper-case hex digit character, as produced by
`toString(16).toUpperCase()` for a digit value below 16. -/
def hexChar (d : ℕ) : Char := Char.ofNat (if d < 10 then 48 + d else 55 + d)

/-- Two upper-case hex characters of a byte, as produced by
`byte.toString(16).padStart(2, '0').toUpperCase()` for a byte below 256. -/
def byteToHexChars (b : ℕ) : List Char := [hexChar (b / 16), hexChar (b % 16)]

/-- Decoder helper `bufferToDeviceId`: format four bytes as a colon-separated
upper-case hex string; the source throws unless the buffer has exactly
4 bytes, modelled as `none`. -/
def bufferToDeviceId (b : List ℕ) : Option (List Char) :=
  match b with
  | [b0, b1, b2, b3] =>
      some (byteToHexChars b0 ++ ':' :: byteToHexChars b1 ++ ':' :: byteToHexChars b2
        ++ ':' :: byteToHexChars b3)
  | _ => none

/-- Decoder helper `hexToBuffer`: strip colons, then parse as hex. -/
def hexToBuffer (s : List Char) : List ℕ := hexPairs (s.filter (fun c => c ≠ ':'))

/-- The `deviceId` field of `EncoderInput` is `string | Buffer`. -/
inductive DeviceId where
  | str (s : List Char)
  | buf (b : List ℕ)
deriving DecidableEq

/-- The `deviceIdBuffer` computed by the encoder: a string has its colons
removed and is parsed as hex, a buffer is used as is. -/
def deviceIdBuffer : DeviceId → List ℕ
  | .str s => hexPairs (s.filter (fun c => c ≠ ':'))
  | .buf b => b

/-- The four device-id bytes of the packet: the first `min 4 len` bytes of
`deviceIdBuffer` copied over a zero-filled buffer (both branches of the
source's length test produce exactly this). -/
def deviceIdField (b : List ℕ) : List ℕ := [b.getD 0 0, b.getD 1 0, b.getD 2 0, b.getD 3 0]

/- Flag-bit constants from `constants.ts` (`FLAGS`); bits 6 and 7 carry no
constants there — the object's comment marks them reserved. -/
namespace FLAGS

def MOTION_DETECTED : ℕ := 0x01

def IS_CHARGING : ℕ := 0x02

def SOS_ACTIVATED : ℕ := 0x04

def LOW_BATTERY : ℕ := 0x08

def GPS_VALID : ℕ := 0x10

def STATIONARY : ℕ := 0x20

end FLAGS

/-- Flag booleans returned by the decoder (exactly the six fields the
decoder builds). -/
structure BeaconFlags where
  motionDetected : Bool
  isCharging : Bool
  sosActivated : Bool
  lowBattery : Bool
  gpsValid : Bool
  stationary : Bool
deriving DecidableEq

/-- Encoder input (`EncoderInput` in `types.ts`). -/
structure EncoderInput where
  deviceId : DeviceId
  latitude : JsNum
  longitude : JsNum
  altitudeMSL : ℚ
  relativeAltitude : ℚ
  battery : ℚ
  timestamp : ℚ
  motionDetected : Bool
  isCharging : Bool
  sosActivated : Bool
  lowBattery : Bool
  gpsValid : Bool
  stationary : Bool
  fallDetected : Bool
  unstableEnvironment : Bool
deriving DecidableEq

/-- Decoded packet (`BeaconData` in `types.ts`). -/
structure BeaconData where
  deviceId : List Char
  latitude : JsNum
  longitude : JsNum
  altitudeMSL : ℤ
  relativeAltitude : ℤ
  battery : ℕ
  timestamp : ℕ
  flags : BeaconFlags
deriving DecidableEq

/-- Flags byte assembled by `encodeBeaconData`. The source also executes
`flagsByte |= FLAGS.FALL_DETECTED` and `flagsByte |= FLAGS.UNSTABLE_ENV`,
but `constants.ts` defines no such keys (bits 6 and 7 are reserved there),
so both reads yield `undefined` and the bitwise or leaves the byte
unchanged; hence only the six defined bits can ever be set. The bits are
distinct powers of two, so the source's bitwise or is a sum. -/
def flagsByteOf (x : EncoderInput) : ℕ :=
  (if x.motionDetected then FLAGS.MOTION_DETECTED else 0)
  + (if x.isCharging then FLAGS.IS_CHARGING else 0)
  + (if x.sosActivated then FLAGS.SOS_ACTIVATED else 0)
  + (if x.lowBattery then FLAGS.LOW_BATTERY else 0)
  + (if x.gpsValid then FLAGS.GPS_VALID else 0)
  + (if x.stationary then FLAGS.STATIONARY else 0)

/-- `encodeBeaconData` (encoder.ts). `Buffer.writeInt16BE` throws when the
rounded altitude leaves the signed 16-bit range and `Buffer.writeUInt16BE`
throws when the saturated timestamp is negative; a throwing run is `none`.
The battery byte is clamped to `[0, 100]` before the write, so its
`writeUInt8` range check cannot fail. -/
def encodeBeaconData (x : EncoderInput) : Option (List ℕ) :=
  let dev := deviceIdField (deviceIdBuffer x.deviceId)
  let altv := jsRound x.altitudeMSL
  let relv := jsRound x.relativeAltitude
  let batv := min 100 (max 0 (jsRound x.battery))
  let tsv := min 65535 (jsRound x.timestamp)
  if -32768 ≤ altv ∧ altv ≤ 32767 ∧ -32768 ≤ relv ∧ relv ≤ 32767 ∧ 0 ≤ tsv then
    some (dev ++ toBytes4 (f32bitsOfNum x.latitude) ++ toBytes4 (f32bitsOfNum x.longitude)
      ++ toBytes2 (int16ToUNat altv) ++ toBytes2 (int16ToUNat relv)
      ++ [batv.toNat] ++ toBytes2 tsv.toNat ++ [flagsByteOf x])
  else none

/-- `decodeBeaconData` (decoder module): `none` when the buffer is not
exactly 20 bytes (the source throws), otherwise the fields read at the
`PACKET_OFFSETS` positions. -/
def decodeBeaconData (bs : List ℕ) : Option BeaconData :=
  match bs with
  | [d0, d1, d2, d3, la0, la1, la2, la3, lo0, lo1, lo2, lo3, am0, am1, ra0, ra1, bat,
      ts0, ts1, fl] =>
    match bufferToDeviceId [d0, d1, d2, d3] with
    | none => none
    | some dev =>
      some
        { deviceId := dev
          latitude := f32valOfBits (la0 * 2 ^ 24 + la1 * 2 ^ 16 + la2 * 2 ^ 8 + la3)
          longitude := f32valOfBits (lo0 * 2 ^ 24 + lo1 * 2 ^ 16 + lo2 * 2 ^ 8 + lo3)
          altitudeMSL := readInt16 (am0 * 2 ^ 8 + am1)
          relativeAltitude := readInt16 (ra0 * 2 ^ 8 + ra1)
          battery := bat
          timestamp := ts0 * 2 ^ 8 + ts1
          flags :=
            { motionDetected := decide (fl &&& FLAGS.MOTION_DETECTED ≠ 0)
              isCharging := decide (fl &&& FLAGS.IS_CHARGING ≠ 0)
              sosActivated := decide (fl &&& FLAGS.SOS_ACTIVATED ≠ 0)
              lowBattery := decide (fl &&& FLAGS.LOW_BATTERY ≠ 0)
              gpsValid := decide (fl &&& FLAGS.GPS_VALID ≠ 0)
              stationary := decide (fl &&& FLAGS.STATIONARY ≠ 0) } }
  | _ => none

/-- JavaScript comparison `n < c` for a decoded float field against a finite
constant: NaN compares false, negative zero compares as zero. -/
def jsLtQ (n : JsNum) (c : ℚ) : Bool :=
  match n with
  | .fin q => decide (q < c)
  | .negzero => decide ((0 : ℚ) < c)
  | .inf neg => neg
  | .nan => false

/-- JavaScript comparison `n > c` for a decoded float field against a finite
constant: NaN compares false, negative zero compares as zero. -/
def jsGtQ (n : JsNum) (c : ℚ) : Bool :=
  match n with
  | .fin q => decide (c < q)
  | .negzero => decide (c < 0)
  | .inf neg => !neg
  | .nan => false

/-- `isValidBeaconPacket` (decoder module): size check, decode inside
try/catch, then the range checks the source performs — latitude, longitude,
battery and altitude; the decoded battery is an unsigned byte, so the
source's `battery < 0` test is kept literally but can never fire. -/
def isValidBeaconPacket (bs : List ℕ) : Bool :=
  if bs.length ≠ 20 then false
  else
    match decodeBeaconData bs with
    | none => false
    | some d =>
      if jsLtQ d.latitude (-90) || jsGtQ d.latitude 90 then false
      else if jsLtQ d.longitude (-180) || jsGtQ d.longitude 180 then false
      else if decide (d.battery < 0) || decide (d.battery > 100) then false
      else if decide (d.altitudeMSL < -500) || decide (d.altitudeMSL > 9000) then false
      else true

/- Emitter side: `apps/emitter/src/services/DataCollector.ts`. -/

/-- Location sample from `SensorDataModule` (the fields the collector
reads). The accuracy is declared `number` but checked with `typeof` at use
sites, so a missing accuracy is modelled as `none`. -/
structure LocationData where
  latitude : ℚ
  longitude : ℚ
  altitude : ℚ
  accuracy : Option ℚ
deriving DecidableEq

/-- A three-axis accelerometer or gyroscope sample. -/
structure MotionReading where
  x : ℚ
  y : ℚ
  z : ℚ
deriving DecidableEq

/-- Altimeter sample (the field the collector reads). -/
structure AltimeterData where
  relativeAltitude : ℚ
deriving DecidableEq

/-- Battery sample. -/
structure BatteryData where
  level : ℚ
  isCharging : Bool
deriving DecidableEq

/-- Snapshot returned by `SensorDataModule.getAllSensorData`. -/
structure AllSensorData where
  location : Option LocationData
  accelerometer : Option MotionReading
  gyroscope : Option MotionReading
  altimeter : Option AltimeterData
  battery : BatteryData
deriving DecidableEq

/-- Mutable fields of a `DataCollector` instance. The acceleration history
stores the squared magnitudes `x² + y² + z²`: every use of a stored
magnitude in the source compares `√s` against a nonnegative constant, and
each such comparison is embedded as the equivalent comparison of `s`
against the squared constant, which is exact. The gyroscope history keeps
real magnitudes because `detectUnstableEnvironment` takes their mean and
variance. -/
structure CollectorState where
  deviceId : List Char
  startAltitude : ℚ
  bootTime : ℤ
  accelerationHistory : List ℚ
  gyroscopeHistory : List ℝ
  fallDetectedTime : ℤ

/-- Cooldown after a detected fall (`FALL_COOLDOWN_MS`). -/
def FALL_COOLDOWN_MS : ℤ := 60000

/-- Squared magnitude of a three-axis sample. -/
def sqMag (r : MotionReading) : ℚ := r.x ^ 2 + r.y ^ 2 + r.z ^ 2

/-- `DataCollector.detectMotion`: accelerometer magnitude deviating from 1 g
by more than 0.1 (`|√s − 1| > 0.1 ↔ s > 1.21 ∨ s < 0.81`), else gyroscope
magnitude above 0.5 rad/s (`√s > 0.5 ↔ s > 0.25`), else false. -/
def detectMotion (snap : AllSensorData) : Bool :=
  match snap.accelerometer with
  | some a => decide (sqMag a > 121/100) || decide (sqMag a < 81/100)
  | none =>
    match snap.gyroscope with
    | some g => decide (sqMag g > 1/4)
    | none => false

/-- `DataCollector.detectFall`, returning the flag and the mutated state.
With no accelerometer sample the source returns false at once, before the
cooldown check. Magnitude thresholds 0.5 g and 2.5 g become 1/4 and 25/4 on
squared magnitudes. `slice(-10)` of a list kept at length ≤ 10 is the list
itself; it is written as the drop of all but the last ten to mirror the
source. -/
def detectFall (st : CollectorState) (snap : AllSensorData) (now : ℤ) :
    Bool × CollectorState :=
  match snap.accelerometer with
  | none => (false, st)
  | some a =>
    if 0 < st.fallDetectedTime ∧ now - st.fallDetectedTime < FALL_COOLDOWN_MS then
      (true, st)
    else
      let s := sqMag a
      let hist0 := st.accelerationHistory ++ [s]
      let hist := if 10 < hist0.length then hist0.tail else hist0
      if hist.length < 5 then (false, { st with accelerationHistory := hist })
      else
        let recent := hist.drop (hist.length - 10)
        let hasFreeFall := recent.any (fun v => decide (v < 1/4))
        let hasImpact := recent.any (fun v => decide (v > 25/4))
        let isHorizontal := decide (|(|a.z| - 1)| < 3/10) && decide (|a.x| < 1/2)
          && decide (|a.y| < 1/2)
        if hasFreeFall && hasImpact && isHorizontal then
          (true, { st with accelerationHistory := hist, fallDetectedTime := now })
        else
          (decide (0 < st.fallDetectedTime ∧ now - st.fallDetectedTime < FALL_COOLDOWN_MS),
            { st with accelerationHistory := hist })

open scoped Classical in
/-- `DataCollector.detectUnstableEnvironment`, returning the flag and the
mutated state: push the gyroscope magnitude (kept ≤ 20), require at least
10 samples, then flag when the mean magnitude exceeds 1 rad/s and the
variance exceeds 0.5. -/
noncomputable def detectUnstableEnvironment (st : CollectorState) (snap : AllSensorData) :
    Bool × CollectorState :=
  match snap.gyroscope with
  | none => (false, st)
  | some g =>
    let mag : ℝ := Real.sqrt ((g.x : ℝ) ^ 2 + (g.y : ℝ) ^ 2 + (g.z : ℝ) ^ 2)
    let hist0 := st.gyroscopeHistory ++ [mag]
    let hist := if 20 < hist0.length then hist0.tail else hist0
    if hist.length < 10 then (false, { st with gyroscopeHistory := hist })
    else
      let avgRotation : ℝ := hist.sum / (hist.length : ℝ)
      let variance : ℝ := (hist.map (fun v => (v - avgRotation) ^ 2)).sum / (hist.length : ℝ)
      (if 1 < avgRotation ∧ 1/2 < variance then true else false,
        { st with gyroscopeHistory := hist })

/-- `DataCollector.collectData`: build the `EncoderInput` for one tick from
the sensor snapshot and the collector state, threading the state through
`detectFall` and `detectUnstableEnvironment`. `now` stands for `Date.now()`
in milliseconds. -/
noncomputable def collectData (st : CollectorState) (snap : AllSensorData) (now : ℤ) :
    EncoderInput × CollectorState :=
  let latitude : ℚ := match snap.location with | some l => l.latitude | none => 0
  let longitude : ℚ := match snap.location with | some l => l.longitude | none => 0
  let altitudeMSL : ℚ := match snap.location with | some l => l.altitude | none => 0
  let relativeAltitude : ℚ :=
    match snap.altimeter with
    | some alt => (jsRound ((alt.relativeAltitude - st.startAltitude) * 100) : ℤ)
    | none =>
      match snap.location with
      | some l => (jsRound ((l.altitude - st.startAltitude) * 100) : ℤ)
      | none => 0
  let battery : ℚ :=
    if 0 ≤ snap.battery.level then (jsRound (snap.battery.level * 100) : ℤ) else 0
  let timestamp : ℚ := (⌊(((now - st.bootTime : ℤ) : ℚ) / 1000)⌋ : ℤ)
  let motionDetected := detectMotion snap
  let lowBattery := decide (snap.battery.level < 1/5) && decide (0 ≤ snap.battery.level)
  let gpsValid : Bool :=
    match snap.location with
    | some l => match l.accuracy with
      | some acc => decide (acc < 200)
      | none => false
    | none => false
  let fall := detectFall st snap now
  let unstable := detectUnstableEnvironment fall.2 snap
  ({ deviceId := .str st.deviceId
     latitude := .fin latitude
     longitude := .fin longitude
     altitudeMSL := altitudeMSL
     relativeAltitude := relativeAltitude
     battery := battery
     timestamp := timestamp
     motionDetected := motionDetected
     isCharging := snap.battery.isCharging
     sosActivated := false
     lowBattery := lowBattery
     gpsValid := gpsValid
     stationary := !motionDetected
     fallDetected := fall.1
     unstableEnvironment := unstable.1 }, unstable.2)

/- Advertisement intervals from `constants.ts` (`ADVERTISEMENT_CONFIG`).
There is no `INTERVAL_EMERGENCY` key in the object. -/
namespace ADVERTISEMENT_CONFIG

def INTERVAL_NORMAL : ℕ := 3000

def INTERVAL_POWER_SAVE : ℕ := 5000

def INTERVAL_CRITICAL : ℕ := 10000

def INTERVAL_ACTIVE : ℕ := 2000

end ADVERTISEMENT_CONFIG

/-- `BeaconTransmitter.calculateAdaptiveInterval`. The first branch reads
`ADVERTISEMENT_CONFIG.INTERVAL_EMERGENCY`, a key `constants.ts` does not
define, so the returned delay there is the JavaScript value `undefined`,
modelled as `none`; the remaining branches return the defined constants. -/
def calculateAdaptiveInterval (data : EncoderInput) : Option ℕ :=
  if data.sosActivated || data.fallDetected || data.unstableEnvironment then none
  else if data.battery < 10 then some ADVERTISEMENT_CONFIG.INTERVAL_CRITICAL
  else if data.lowBattery then some ADVERTISEMENT_CONFIG.INTERVAL_POWER_SAVE
  else if data.motionDetected then some ADVERTISEMENT_CONFIG.INTERVAL_ACTIVE
  else some ADVERTISEMENT_CONFIG.INTERVAL_NORMAL

/- Receiver side: `apps/receiver/src/services/BeaconScanner.ts` (the
native-module version that performs RSSI smoothing and history keeping). -/

/-- Ascending insertion into a sorted list. -/
def insertSorted (v : ℚ) : List ℚ → List ℚ
  | [] => [v]
  | w :: rest => if v ≤ w then v :: w :: rest else w :: insertSorted v rest

/-- Ascending sort, the value sequence produced by
`[...list].sort((a, b) => a - b)` on numbers. -/
def sortAsc (l : List ℚ) : List ℚ := l.foldr insertSorted []

/-- Index weight `i + 1` summation: `Σ vᵢ · (i + 1)` over a list. -/
def weightedSum (l : List ℚ) : ℚ := (l.enum.map (fun p => p.2 * ((p.1 + 1 : ℕ) : ℚ))).sum

/-- Sum of the index weights `1..n` of a list. -/
def weightSum (l : List ℚ) : ℚ := (l.enum.map (fun p => ((p.1 + 1 : ℕ) : ℚ))).sum

/-- The IQR window `[Q1 − 1.5·IQR, Q3 + 1.5·IQR]` of a list, with quartiles
read from the sorted copy at `⌊n·0.25⌋` and `⌊n·0.75⌋` (exact for the
window lengths ≤ 11 that occur, hence natural division). -/
def iqrBounds (w : List ℚ) : ℚ × ℚ :=
  let sorted := sortAsc w
  let q1 := sorted.getD (w.length / 4) 0
  let q3 := sorted.getD (w.length * 3 / 4) 0
  let iqr := q3 - q1
  (q1 - 3/2 * iqr, q3 + 3/2 * iqr)

/-- `BeaconScanner.smoothRSSI`: push the new reading (history kept at ≤ 10),
reject IQR outliers once at least 5 samples are present (falling back to
all values when fewer than 3 survive), and return the weighted mean with
linear weights `1, 2, 3, …` over the retained values, rounded, together
with the updated (unfiltered) history. -/
def smoothRSSI (newRssi : ℚ) (history : List ℚ) : ℤ × List ℚ :=
  let updated0 := history ++ [newRssi]
  let updated := if 10 < updated0.length then updated0.tail else updated0
  let filtered :=
    if 5 ≤ updated.length then
      let bounds := iqrBounds updated
      let f := updated.filter (fun v => decide (bounds.1 ≤ v) && decide (v ≤ bounds.2))
      if f.length < 3 then updated else f
    else updated
  (jsRound (weightedSum filtered / weightSum filtered), updated)

/-- A point of the per-beacon location history. Latitude and longitude come
from decoded float fields and keep their JavaScript value type. -/
structure LocationHistoryPoint where
  latitude : JsNum
  longitude : JsNum
  altitude : ℤ
  timestamp : ℤ

/-- Receiver record for one discovered beacon. -/
structure DiscoveredBeacon where
  id : List Char
  deviceId : List Char
  deviceName : List Char
  beaconData : Option BeaconData
  rssi : ℚ
  rawRssi : ℚ
  lastSeen : ℤ
  rawData : List Char
  rssiHistory : List ℚ
  usingCachedGPS : Bool
  locationHistory : List LocationHistoryPoint

/-- Event delivered by the native `BLEBeaconScanner` module. -/
structure BeaconDiscoveredEvent where
  deviceId : List Char
  deviceName : List Char
  beaconData : List Char
  rssi : ℚ
  timestamp : ℤ

/-- The `beaconsFound` map, keyed by the decoded device id. -/
def BeaconStore : Type := List (List Char × DiscoveredBeacon)

/-- Map lookup on the beacon store. -/
def storeLookup : BeaconStore → List Char → Option DiscoveredBeacon
  | [], _ => none
  | (k0, v0) :: rest, k => if k0 = k then some v0 else storeLookup rest k

/-- Map update (`Map.set`): replace the binding of the key or append it. -/
def storeSet : BeaconStore → List Char → DiscoveredBeacon → BeaconStore
  | [], k, v => [(k, v)]
  | (k0, v0) :: rest, k, v =>
    if k0 = k then (k, v) :: rest else (k0, v0) :: storeSet rest k v

/-- JavaScript `Math.atan2` over the reals. -/
noncomputable def atan2R (y x : ℝ) : ℝ :=
  if 0 < x then Real.arctan (y / x)
  else if x < 0 ∧ 0 ≤ y then Real.arctan (y / x) + Real.pi
  else if x < 0 ∧ y < 0 then Real.arctan (y / x) - Real.pi
  else if x = 0 ∧ 0 < y then Real.pi / 2
  else if x = 0 ∧ y < 0 then -(Real.pi / 2)
  else 0

/-- `BeaconScanner.calculateDistance`: Haversine distance in metres. -/
noncomputable def calculateDistance (lat1 lon1 lat2 lon2 : ℚ) : ℝ :=
  let R : ℝ := 6371000
  let dLat : ℝ := ((lat2 : ℝ) - (lat1 : ℝ)) * Real.pi / 180
  let dLon : ℝ := ((lon2 : ℝ) - (lon1 : ℝ)) * Real.pi / 180
  let a : ℝ := Real.sin (dLat / 2) * Real.sin (dLat / 2)
    + Real.cos ((lat1 : ℝ) * Real.pi / 180) * Real.cos ((lat2 : ℝ) * Real.pi / 180)
      * Real.sin (dLon / 2) * Real.sin (dLon / 2)
  let c : ℝ := 2 * atan2R (Real.sqrt a) (Real.sqrt (1 - a))
  R * c

/-- Finite rational value of a JavaScript float-field number, `none` for an
infinity or NaN (negative zero compares as zero). -/
def jsNumFiniteQ : JsNum → Option ℚ
  | .fin q => some q
  | .negzero => some 0
  | _ => none

open scoped Classical in
/-- The source's `calculateDistance(...) > 5` test on decoded float values:
any NaN or infinite operand propagates to a NaN distance, and a JavaScript
comparison against NaN is false. -/
noncomputable def distGt5 (lat1 lon1 lat2 lon2 : JsNum) : Bool :=
  match jsNumFiniteQ lat1, jsNumFiniteQ lon1, jsNumFiniteQ lat2, jsNumFiniteQ lon2 with
  | some a, some b, some c, some d =>
    if (5 : ℝ) < calculateDistance a b c d then true else false
  | _, _, _, _ => false

/-- `BeaconScanner.handleBeaconDiscovered`: decode the event payload (an
undecodable payload is caught and dropped), smooth the RSSI against the
stored history, extend the location history on a valid GPS fix that moved
more than 5 m, retain the previous coordinates when the fix was lost, and
set the record under the decoded device id. No validation beyond the
decoder's own size check is performed before the record is stored. -/
noncomputable def handleBeaconDiscovered (store : BeaconStore)
    (event : BeaconDiscoveredEvent) : BeaconStore :=
  match decodeBeaconData (hexToBuffer event.beaconData) with
  | none => store
  | some bd =>
    let existing := storeLookup store bd.deviceId
    let rssiHistory := match existing with | some b => b.rssiHistory | none => []
    let locationHistory := match existing with | some b => b.locationHistory | none => []
    let sm := smoothRSSI event.rssi rssiHistory
    let updatedLocationHistory :=
      if bd.flags.gpsValid then
        let shouldAdd :=
          match locationHistory.getLast? with
          | none => true
          | some p => distGt5 p.latitude p.longitude bd.latitude bd.longitude
        if shouldAdd then
          let h := locationHistory
            ++ [{ latitude := bd.latitude, longitude := bd.longitude,
                  altitude := bd.altitudeMSL, timestamp := event.timestamp }]
          if 10 < h.length then h.tail else h
        else locationHistory
      else locationHistory
    let finalAndCached : BeaconData × Bool :=
      if !bd.flags.gpsValid then
        match existing with
        | some ex =>
          match ex.beaconData with
          | some exd =>
            if exd.flags.gpsValid then
              ({ bd with
                  latitude := exd.latitude
                  longitude := exd.longitude
                  altitudeMSL := exd.altitudeMSL }, true)
            else (bd, false)
          | none => (bd, false)
        | none => (bd, false)
      else (bd, false)
    storeSet store bd.deviceId
      { id := bd.deviceId
        deviceId := event.deviceId
        deviceName := event.deviceName
        beaconData := some finalAndCached.1
        rssi := (sm.1 : ℚ)
        rawRssi := event.rssi
        lastSeen := event.timestamp
        rawData := event.beaconData
        rssiHistory := sm.2
        usingCachedGPS := finalAndCached.2
        locationHistory := updatedLocationHistory }

/- Precision finding: `apps/receiver/src/components/PrecisionFindingView.tsx`,
proximity-level state machine (lines 132-177). -/

/-- The four proximity levels. -/
inductive ProximityLevel where
  | here
  | near
  | medium
  | far
deriving DecidableEq

/-- The `statePriority` table: lower is closer. -/
def statePriority : ProximityLevel → ℕ
  | .here => 0
  | .near => 1
  | .medium => 2
  | .far => 3

/-- The current priority as the source computes it:
`statePriority[currentLevel] || 3`. The table value for `here` is 0, which
is falsy in JavaScript, so the fallback 3 is taken for `here`. -/
def currentPriorityOf (l : ProximityLevel) : ℕ :=
  if statePriority l = 0 then 3 else statePriority l

/-- Hysteresis margin of the proximity state machine (15 cm). -/
def HYSTERESIS : ℚ := 15/100

/-- Natural proximity level of a smoothed distance: thresholds 0.5 m, 1.5 m
and 5 m. -/
def naturalLevelOf (d : ℚ) : ProximityLevel :=
  if d < 1/2 then .here
  else if d < 3/2 then .near
  else if d < 5 then .medium
  else .far

/-- The proximity-level transition of one UI tick: instant when the natural
level's priority is below the computed current priority, hysteresis
branches when it is above, no change otherwise. -/
def nextProximityLevel (current : ProximityLevel) (d : ℚ) : ProximityLevel :=
  let naturalLevel := naturalLevelOf d
  let currentPriority := currentPriorityOf current
  let naturalPriority := statePriority naturalLevel
  if naturalPriority < currentPriority then naturalLevel
  else if currentPriority < naturalPriority then
    if current = .here ∧ 1/2 + HYSTERESIS ≤ d then naturalLevel
    else if current = .near ∧ 3/2 + HYSTERESIS ≤ d then naturalLevel
    else if current = .medium ∧ 5 + HYSTERESIS ≤ d then naturalLevel
    else current
  else naturalLevel

/- Specification-side definitions, written from the claims' words, to be
compared with the embedded code. -/

/-- Canonicalization exactly as claim C1 words it: clamp the battery to
`[0, 100]`, round altitudes, battery and timestamp, saturate the timestamp
at 65535 — and nothing else, so latitude and longitude are kept as given.
The device id is the encoder's four-byte field rendered in the decoder's
string format. -/
def canonicalizeClaim (x : EncoderInput) : BeaconData :=
  { deviceId := (bufferToDeviceId (deviceIdField (deviceIdBuffer x.deviceId))).getD []
    latitude := x.latitude
    longitude := x.longitude
    altitudeMSL := jsRound x.altitudeMSL
    relativeAltitude := jsRound x.relativeAltitude
    battery := (min 100 (max 0 (jsRound x.battery))).toNat
    timestamp := (min 65535 (jsRound x.timestamp)).toNat
    flags :=
      { motionDetected := x.motionDetected
        isCharging := x.isCharging
        sosActivated := x.sosActivated
        lowBattery := x.lowBattery
        gpsValid := x.gpsValid
        stationary := x.stationary } }

/-- Canonicalization as the amended claim C1 needs it: as `canonicalizeClaim`
but with latitude and longitude additionally quantized to the nearest
IEEE-754 binary32 value (the value decoded from their encoded bits). -/
def canonicalizeBeacon (x : EncoderInput) : BeaconData :=
  { canonicalizeClaim x with
      latitude := f32valOfBits (f32bitsOfNum x.latitude)
      longitude := f32valOfBits (f32bitsOfNum x.longitude) }

/-- A decoded packet passed back to the encoder as its input. The decoded
object has no `fallDetected` or `unstableEnvironment` property, so those
reads are `undefined`, which is falsy. -/
def toEncoderInput (d : BeaconData) : EncoderInput :=
  { deviceId := .str d.deviceId
    latitude := d.latitude
    longitude := d.longitude
    altitudeMSL := (d.altitudeMSL : ℚ)
    relativeAltitude := (d.relativeAltitude : ℚ)
    battery := (d.battery : ℚ)
    timestamp := (d.timestamp : ℚ)
    motionDetected := d.flags.motionDetected
    isCharging := d.flags.isCharging
    sosActivated := d.flags.sosActivated
    lowBattery := d.flags.lowBattery
    gpsValid := d.flags.gpsValid
    stationary := d.flags.stationary
    fallDetected := false
    unstableEnvironment := false }

/- Spec-side window/survivor definitions for the RSSI smoothing claim. -/

/-- The window the smoother works on: the history with the new sample
pushed, truncated to the last 10. -/
def windowAfter (h : List ℚ) (r : ℚ) : List ℚ :=
  let u := h ++ [r]
  if 10 < u.length then u.tail else u

/-- The values of a window inside its IQR bounds. -/
def survivors (w : List ℚ) : List ℚ :=
  w.filter (fun v => decide ((iqrBounds w).1 ≤ v) && decide (v ≤ (iqrBounds w).2))

/- Concrete inputs used by counterexamples and witnesses. -/

/-- Encoder input with every field zero, false or empty. -/
def baseInput : EncoderInput :=
  { deviceId := .buf []
    latitude := .fin 0
    longitude := .fin 0
    altitudeMSL := 0
    relativeAltitude := 0
    battery := 0
    timestamp := 0
    motionDetected := false
    isCharging := false
    sosActivated := false
    lowBattery := false
    gpsValid := false
    stationary := false
    fallDetected := false
    unstableEnvironment := false }

/-- Collector state with an armed fall latch recorded at t₀ = 1000 ms. -/
def latchState : CollectorState :=
  { deviceId := []
    startAltitude := 0
    bootTime := 0
    accelerationHistory := []
    gyroscopeHistory := []
    fallDetectedTime := 1000 }

/-- Sensor snapshot with no optional modality present. -/
def quietSnap : AllSensorData :=
  { location := none
    accelerometer := none
    gyroscope := none
    altimeter := none
    battery := { level := 1, isCharging := false } }

/-- Collector state with no fall recorded. -/
def baseState : CollectorState :=
  { deviceId := []
    startAltitude := 0
    bootTime := 0
    accelerationHistory := []
    gyroscopeHistory := []
    fallDetectedTime := 0 }

/-- Sensor snapshot with a location fix of 500 m accuracy (worse than the
200 m gps-valid threshold) at latitude 1, longitude 2. -/
def badAccSnap : AllSensorData :=
  { location := some { latitude := 1, longitude := 2, altitude := 0, accuracy := some 500 }
    accelerometer := none
    gyroscope := none
    altimeter := none
    battery := { level := 1, isCharging := false } }

/-- The all-zero 20-byte packet. -/
def zeroPkt : List ℕ := List.replicate 20 0

/-- A 20-byte packet with the low-battery flag bit (0x08) set and battery
byte 80; all other bytes zero. -/
def lowBatPkt : List ℕ :=
  [0, 0, 0, 0, 0, 0, 0, 0, 0, 0, 0, 0, 0, 0, 0, 0, 80, 0, 0, 8]

/-- Scan event whose payload decodes to battery = 101 (byte 0x65 at offset
16), an out-of-range value the validator would reject. -/
def ev101 : BeaconDiscoveredEvent :=
  { deviceId := []
    deviceName := []
    beaconData := "0000000000000000000000000000000065000000".toList
    rssi := -50
    timestamp := 0 }

/-- The decoded form of the battery-101 payload of `ev101`. -/
def bd101 : BeaconData :=
  { deviceId := "00:00:00:00".toList
    latitude := .fin 0
    longitude := .fin 0
    altitudeMSL := 0
    relativeAltitude := 0
    battery := 101
    timestamp := 0
    flags :=
      { motionDetected := false
        isCharging := false
        sosActivated := false
        lowBattery := false
        gpsValid := false
        stationary := false } }

/-- An RSSI history of five identical in-range samples. -/
def rssiHist5 : List ℚ := [-60, -60, -60, -60, -60]

/-- The 20-byte list `encodeBeaconData` produces whenever its range checks
pass (named so the round-trip lemmas can speak about it directly). -/
def encList (x : EncoderInput) : List ℕ :=
  deviceIdField (deviceIdBuffer x.deviceId) ++ toBytes4 (f32bitsOfNum x.latitude)
    ++ toBytes4 (f32bitsOfNum x.longitude) ++ toBytes2 (int16ToUNat (jsRound x.altitudeMSL))
    ++ toBytes2 (int16ToUNat (jsRound x.relativeAltitude))
    ++ [(min 100 (max 0 (jsRound x.battery))).toNat]
    ++ toBytes2 (min 65535 (jsRound x.timestamp)).toNat ++ [flagsByteOf x]

/- Theorems. -/

/-- C6: evaluation of the proximity state machine at the failing input. At
current level `here` with smoothed distance 0.6 m the claim requires the
state to stay `here` (0.6 is below the hysteresis exit threshold
0.5 + 0.15 = 0.65), but the code transitions to `near` instantly: the
priority lookup `statePriority[currentLevel] || 3` maps the falsy priority
0 of `here` to 3, so the move-away hysteresis branch never runs for
`here`. -/
theorem c6_here_hysteresis_dead :
    nextProximityLevel ProximityLevel.here (3/5) = ProximityLevel.near
    ∧ (3/5 : ℚ) < 1/2 + HYSTERESIS := by
  constructor
  · norm_num [nextProximityLevel, naturalLevelOf, currentPriorityOf, statePriority, HYSTERESIS]
  · norm_num [HYSTERESIS]

/-- C2: the encoder can never set bits 6 or 7 of the flags byte — the
`FLAGS.FALL_DETECTED` and `FLAGS.UNSTABLE_ENV` reads are `undefined`, so
the flags byte stays below 64 for every input; in particular the input
with `fallDetected` and `unstableEnvironment` true and every other flag
false yields flags byte 0, where the claim requires 0xC0. The decoder is
likewise unable to report them: the `BeaconFlags` it returns has no
fall-detected or unstable-environment field at all. -/
theorem c2_fall_unstable_bits_never_set :
    (∀ x : EncoderInput, flagsByteOf x < 64)
    ∧ flagsByteOf
        { baseInput with fallDetected := true, unstableEnvironment := true } = 0 := by
  constructor
  · intro x
    unfold flagsByteOf FLAGS.MOTION_DETECTED FLAGS.IS_CHARGING FLAGS.SOS_ACTIVATED
      FLAGS.LOW_BATTERY FLAGS.GPS_VALID FLAGS.STATIONARY
    split_ifs <;> decide
  · rfl

/-- C3 counterexample: for the emitter payload with `sosActivated = true`
and battery 5 the claim asserts the adaptive interval 1000 ms; the code
takes the emergency branch, whose constant `INTERVAL_EMERGENCY` does not
exist in `ADVERTISEMENT_CONFIG`, so the returned delay is `undefined`
(`none`), not 1000. -/
theorem c3_emergency_interval_cex :
    calculateAdaptiveInterval { baseInput with sosActivated := true, battery := 5, lowBattery := true }
      ≠ some 1000
    ∧ calculateAdaptiveInterval { baseInput with sosActivated := true, battery := 5, lowBattery := true }
      = none := by
  constructor
  · decide
  · decide

/-- C3 amended: the priority order of `calculateAdaptiveInterval` is as the
claim states (emergency flags dominate battery, then battery < 10, then
low battery, then motion, then the default), but the values are those of
`constants.ts`: the emergency branch yields `undefined` (the
`INTERVAL_EMERGENCY` key is absent), critical battery 10000 ms, low
battery 5000 ms, motion 2000 ms, default 3000 ms. -/
theorem c3_adaptive_interval_amended (x : EncoderInput) :
    ((x.sosActivated || x.fallDetected || x.unstableEnvironment) = true →
      calculateAdaptiveInterval x = none)
    ∧ ((x.sosActivated || x.fallDetected || x.unstableEnvironment) = false →
        x.battery < 10 → calculateAdaptiveInterval x = some 10000)
    ∧ ((x.sosActivated || x.fallDetected || x.unstableEnvironment) = false →
        ¬x.battery < 10 → x.lowBattery = true → calculateAdaptiveInterval x = some 5000)
    ∧ ((x.sosActivated || x.fallDetected || x.unstableEnvironment) = false →
        ¬x.battery < 10 → x.lowBattery = false → x.motionDetected = true →
        calculateAdaptiveInterval x = some 2000)
    ∧ ((x.sosActivated || x.fallDetected || x.unstableEnvironment) = false →
        ¬x.battery < 10 → x.lowBattery = false → x.motionDetected = false →
        calculateAdaptiveInterval x = some 3000) := by
  refine ⟨fun h => ?_, fun h hb => ?_, fun h hb hl => ?_, fun h hb hl hm => ?_,
    fun h hb hl hm => ?_⟩
  · simp [calculateAdaptiveInterval, h]
  · simp [calculateAdaptiveInterval, h, hb, ADVERTISEMENT_CONFIG.INTERVAL_CRITICAL]
  · simp [calculateAdaptiveInterval, h, hb, hl, ADVERTISEMENT_CONFIG.INTERVAL_POWER_SAVE]
  · simp [calculateAdaptiveInterval, h, hb, hl, hm, ADVERTISEMENT_CONFIG.INTERVAL_ACTIVE]
  · simp [calculateAdaptiveInterval, h, hb, hl, hm, ADVERTISEMENT_CONFIG.INTERVAL_NORMAL]

/-- C3 amended, witness: the emitter payload with SOS active and battery 5
takes the emergency branch (not the critical-battery one), yielding the
undefined emergency interval. -/
theorem c3_adaptive_interval_amended_witness :
    calculateAdaptiveInterval { baseInput with sosActivated := true, battery := 5, lowBattery := true }
      = none :=
  (c3_adaptive_interval_amended
    { baseInput with sosActivated := true, battery := 5, lowBattery := true }).1 (by decide)

/-- Helper: `detectUnstableEnvironment` never changes the fall latch. -/
theorem detectUnstable_fallTime (st : CollectorState) (snap : AllSensorData) :
    (detectUnstableEnvironment st snap).2.fallDetectedTime = st.fallDetectedTime := by
  cases hg : snap.gyroscope with
  | none => simp [detectUnstableEnvironment, hg]
  | some g =>
    simp only [detectUnstableEnvironment, hg]
    split <;> first
    | rfl
    | (split <;> rfl)

/-- C7 amended: once a fall is latched at t₀ > 0, every tick in
[t₀, t₀ + 60000) whose snapshot carries an accelerometer sample produces a
payload with `fallDetected = true` and keeps the latch time unchanged. The
restriction to ticks with accelerometer data is forced: the source returns
false before the cooldown check when the sample is missing. -/
theorem c7_fall_latch_amended (st : CollectorState) (snap : AllSensorData) (now t0 : ℤ)
    (a : MotionReading)
    (hacc : snap.accelerometer = some a)
    (hst : st.fallDetectedTime = t0) (hpos : 0 < t0)
    (hle : t0 ≤ now) (hlt : now < t0 + 60000) :
    (collectData st snap now).1.fallDetected = true
    ∧ (collectData st snap now).2.fallDetectedTime = t0 := by
  have hcool : 0 < st.fallDetectedTime ∧ now - st.fallDetectedTime < FALL_COOLDOWN_MS := by
    rw [hst]
    exact ⟨hpos, by unfold FALL_COOLDOWN_MS; omega⟩
  have hfall : detectFall st snap now = (true, st) := by
    unfold detectFall
    rw [hacc]
    simp [hcool]
  constructor
  · unfold collectData
    simp [hfall]
  · unfold collectData
    simp [hfall, detectUnstable_fallTime, hst]

/-- C7 amended, witness: with the latch recorded at t₀ = 1000 and an
accelerometer sample present at t = 2000, the payload reports a fall and
the latch is preserved. -/
theorem c7_fall_latch_amended_witness :
    (collectData latchState { quietSnap with accelerometer := some ⟨0, 0, 0⟩ } 2000).1.fallDetected
      = true
    ∧ (collectData latchState { quietSnap with accelerometer := some ⟨0, 0, 0⟩ } 2000).2.fallDetectedTime
      = 1000 :=
  c7_fall_latch_amended latchState _ 2000 1000 ⟨0, 0, 0⟩ rfl rfl (by decide) (by decide) (by decide)

/-- C7 counterexample: the fall latch is live (recorded at t₀ = 1000, tick
at t = 2000, well inside the 60 s window), the snapshot carries no
accelerometer data, and the claim demands `fallDetected = true` for this
tick too — but the payload reports false: the source returns false on a
missing accelerometer sample before consulting the latch. -/
theorem c7_no_accel_breaks_latch :
    quietSnap.accelerometer = none
    ∧ latchState.fallDetectedTime = 1000
    ∧ (collectData latchState quietSnap 2000).1.fallDetected = false := by
  refine ⟨rfl, rfl, ?_⟩
  simp [collectData, detectFall, quietSnap, latchState]

/-- C8 theorem (amended): the fusion sets `gpsValid` true exactly when a
location with a present (numeric) accuracy below 200 m is in the snapshot;
the payload coordinates are 0/0 exactly when no location is present, and
when a location is present its coordinates are written even if `gpsValid`
is false. -/
theorem c8_gps_valid_and_coordinates (st : CollectorState) (snap : AllSensorData) (now : ℤ) :
    ((collectData st snap now).1.gpsValid = true ↔
      ∃ l, snap.location = some l ∧ ∃ acc, l.accuracy = some acc ∧ acc < 200)
    ∧ (snap.location = none →
        (collectData st snap now).1.latitude = JsNum.fin 0
        ∧ (collectData st snap now).1.longitude = JsNum.fin 0)
    ∧ (∀ l, snap.location = some l →
        (collectData st snap now).1.latitude = JsNum.fin l.latitude
        ∧ (collectData st snap now).1.longitude = JsNum.fin l.longitude) := by
  refine ⟨?_, ?_, ?_⟩
  · cases hl : snap.location with
    | none => simp [collectData, hl]
    | some l =>
      cases ha : l.accuracy with
      | none => simp [collectData, hl, ha]
      | some acc => simp [collectData, hl, ha]
  · intro hl
    constructor <;> simp [collectData, hl]
  · intro l hl
    constructor <;> simp [collectData, hl]

/-- C8 amended, witness: with no location in the snapshot the payload
coordinates are 0/0. -/
theorem c8_gps_valid_witness :
    (collectData baseState quietSnap 0).1.latitude = JsNum.fin 0
    ∧ (collectData baseState quietSnap 0).1.longitude = JsNum.fin 0 :=
  (c8_gps_valid_and_coordinates baseState quietSnap 0).2.1 rfl

/-- C8 counterexample: a snapshot with a location of accuracy 500 m yields
`gpsValid = false`, yet the payload carries the location's latitude 1 (not
0 as the claim requires whenever gps_valid is false). -/
theorem c8_stale_accuracy_keeps_coordinates :
    (collectData baseState badAccSnap 0).1.gpsValid = false
    ∧ (collectData baseState badAccSnap 0).1.latitude = JsNum.fin 1
    ∧ JsNum.fin 1 ≠ JsNum.fin 0 := by
  refine ⟨?_, ?_, by decide⟩
  · simp [collectData, badAccSnap]
    norm_num
  · simp [collectData, badAccSnap]

/-- C9: when the pushed sample lies outside the IQR bounds of the resulting
window and at least three values survive the filter, the smoothed output is
exactly the rounded index-weighted mean of the survivors, and the injected
outlier is not among them — it contributes nothing. -/
theorem c9_rssi_outlier_filtered (r : ℚ) (h : List ℚ)
    (hlen : 5 ≤ h.length)
    (hout : r < (iqrBounds (windowAfter h r)).1 ∨ (iqrBounds (windowAfter h r)).2 < r)
    (hsurv : 3 ≤ (survivors (windowAfter h r)).length) :
    (smoothRSSI r h).1
      = jsRound (weightedSum (survivors (windowAfter h r))
          / weightSum (survivors (windowAfter h r)))
    ∧ r ∉ survivors (windowAfter h r) := by
  have h5 : 5 ≤ (windowAfter h r).length := by
    simp only [windowAfter]
    split <;> simp <;> omega
  constructor
  · simp only [smoothRSSI]
    rw [show (if 10 < (h ++ [r]).length then (h ++ [r]).tail else (h ++ [r]))
        = windowAfter h r from rfl]
    rw [if_pos h5]
    rw [if_neg (by unfold survivors at hsurv; omega)]
    rfl
  · intro hmem
    have := List.mem_filter.mp hmem
    rcases this with ⟨-, hcond⟩
    simp only [Bool.and_eq_true, decide_eq_true_eq] at hcond
    rcases hout with hlo | hhi
    · linarith [hcond.1]
    · linarith [hcond.2]

/-- Helper: the window obtained by pushing −200 onto five −60 samples. -/
theorem windowAfter_rssiHist5 :
    windowAfter rssiHist5 (-200) = [-60, -60, -60, -60, -60, -200] := by
  norm_num [windowAfter, rssiHist5]

/-- Helper: IQR bounds of that window are degenerate at −60. -/
theorem iqrBounds_rssiHist5 :
    iqrBounds (windowAfter rssiHist5 (-200)) = (-60, -60) := by
  rw [windowAfter_rssiHist5]
  norm_num [iqrBounds, sortAsc, insertSorted]

/-- Helper: the outlier −200 is filtered out, five −60 samples survive. -/
theorem survivors_rssiHist5 :
    survivors (windowAfter rssiHist5 (-200)) = [-60, -60, -60, -60, -60] := by
  unfold survivors
  rw [iqrBounds_rssiHist5, windowAfter_rssiHist5]
  norm_num [List.filter]

/-- C9, witness: pushing the outlier −200 onto the in-range history of five
−60 samples leaves the smoothed output at the weighted mean of the five
surviving −60 samples, and the outlier is not among the survivors. -/
theorem c9_rssi_outlier_filtered_witness :
    (smoothRSSI (-200) rssiHist5).1
      = jsRound (weightedSum (survivors (windowAfter rssiHist5 (-200)))
          / weightSum (survivors (windowAfter rssiHist5 (-200))))
    ∧ (-200 : ℚ) ∉ survivors (windowAfter rssiHist5 (-200)) :=
  c9_rssi_outlier_filtered (-200) rssiHist5 (by norm_num [rssiHist5])
    (by rw [iqrBounds_rssiHist5]; left; norm_num)
    (by rw [survivors_rssiHist5]; norm_num)

/-- Helper: updating a key in the store and looking it up returns the new
record. -/
theorem storeLookup_storeSet_self (s : BeaconStore) (k : List Char) (v : DiscoveredBeacon) :
    storeLookup (storeSet s k v) k = some v := by
  induction s with
  | nil => simp [storeSet, storeLookup]
  | cons p rest ih =>
    obtain ⟨k0, v0⟩ := p
    by_cases hk : k0 = k
    · simp [storeSet, storeLookup, hk]
    · simp [storeSet, storeLookup, hk, ih]

/-- C4 amended: every advertisement whose payload decodes successfully is
inserted into the record store, with no validity check: after
`handleBeaconDiscovered`, the decoded device id is always present. -/
theorem c4_ingress_inserts_without_validation (store : BeaconStore)
    (ev : BeaconDiscoveredEvent) (bd : BeaconData)
    (hdec : decodeBeaconData (hexToBuffer ev.beaconData) = some bd) :
    (storeLookup (handleBeaconDiscovered store ev) bd.deviceId).isSome = true := by
  unfold handleBeaconDiscovered
  rw [hdec]
  simp only [storeLookup_storeSet_self, Option.isSome_some]

/-- Helper: the battery-101 event payload decodes to `bd101`. -/
theorem decode_ev101 : decodeBeaconData (hexToBuffer ev101.beaconData) = some bd101 := by
  have hb : hexToBuffer ev101.beaconData
      = [0, 0, 0, 0, 0, 0, 0, 0, 0, 0, 0, 0, 0, 0, 0, 0, 101, 0, 0, 0] := by decide
  have hf : f32valOfBits 0 = JsNum.fin 0 := by norm_num [f32valOfBits]
  rw [hb]
  simp only [decodeBeaconData, bufferToDeviceId]
  norm_num [bd101, hf, readInt16]
  decide

/-- C4 counterexample: the payload of `ev101` decodes to battery 101, the
validator rejects it, and yet the scan ingress creates a record for it in
an empty store — no validation happens before insertion. -/
theorem c4_battery101_record_created :
    decodeBeaconData (hexToBuffer ev101.beaconData) = some bd101
    ∧ bd101.battery = 101
    ∧ isValidBeaconPacket (hexToBuffer ev101.beaconData) = false
    ∧ (storeLookup (handleBeaconDiscovered [] ev101) bd101.deviceId).isSome = true := by
  refine ⟨decode_ev101, rfl, ?_, ?_⟩
  · have h20 : (hexToBuffer ev101.beaconData).length = 20 := by decide
    simp only [isValidBeaconPacket, h20, decode_ev101]
    norm_num [bd101, jsLtQ, jsGtQ]
  · unfold handleBeaconDiscovered
    rw [decode_ev101]
    simp only [storeLookup_storeSet_self, Option.isSome_some]

/-- C4 amended, witness: the battery-101 event is inserted into the empty
store although its payload fails validation. -/
theorem c4_ingress_inserts_witness :
    (storeLookup (handleBeaconDiscovered [] ev101) bd101.deviceId).isSome = true :=
  c4_ingress_inserts_without_validation [] ev101 bd101 decode_ev101

/-- Helper: the zero bit pattern decodes to the float +0. -/
theorem f32valOfBits_zero : f32valOfBits 0 = JsNum.fin 0 := by
  norm_num [f32valOfBits]

/-- Helper: a packet that decodes successfully has exactly 20 bytes. -/
theorem decodeBeaconData_length (bs : List ℕ) (d : BeaconData)
    (hd : decodeBeaconData bs = some d) : bs.length = 20 := by
  unfold decodeBeaconData at hd
  split at hd
  · simp_all
  · cases hd

/-- Helper: the low-battery packet decodes to battery 80 with the
low-battery flag set and all other fields zero. -/
theorem decode_lowBatPkt :
    decodeBeaconData lowBatPkt
      = some
          { deviceId := "00:00:00:00".toList
            latitude := .fin 0
            longitude := .fin 0
            altitudeMSL := 0
            relativeAltitude := 0
            battery := 80
            timestamp := 0
            flags :=
              { motionDetected := false
                isCharging := false
                sosActivated := false
                lowBattery := true
                gpsValid := false
                stationary := false } } := by
  simp only [lowBatPkt, decodeBeaconData, bufferToDeviceId]
  norm_num [f32valOfBits_zero, readInt16]
  decide

/-- C5 counterexample: the 20-byte packet with the low-battery flag bit set
and battery 80 is accepted by `isValidBeaconPacket`, although the claim
requires rejection (low_battery implies battery < 20 is not checked by the
code). -/
theorem c5_low_battery_flag_not_checked :
    isValidBeaconPacket lowBatPkt = true
    ∧ (decodeBeaconData lowBatPkt).map (fun d => (d.flags.lowBattery, d.battery))
      = some (true, 80) := by
  constructor
  · have h20 : lowBatPkt.length = 20 := by decide
    simp only [isValidBeaconPacket, h20, decode_lowBatPkt]
    norm_num [jsLtQ, jsGtQ]
  · rw [decode_lowBatPkt]
    rfl

/-- C5 amended: for every 20-byte packet whose decoded latitude and
longitude are finite, the validator accepts iff latitude ∈ [−90, 90],
longitude ∈ [−180, 180], battery ≤ 100 and altitudeMSL ∈ [−500, 9000]; the
claimed low_battery ⇒ battery < 20 implication is not part of the check
(and the decoded battery byte is never negative). -/
theorem c5_validator_amended (bs : List ℕ) (d : BeaconData) (la lo : ℚ)
    (hd : decodeBeaconData bs = some d)
    (hla : d.latitude = .fin la) (hlo : d.longitude = .fin lo) :
    isValidBeaconPacket bs = true ↔
      (-90 ≤ la ∧ la ≤ 90 ∧ -180 ≤ lo ∧ lo ≤ 180 ∧ d.battery ≤ 100
        ∧ -500 ≤ d.altitudeMSL ∧ d.altitudeMSL ≤ 9000) := by
  have hlen : bs.length = 20 := decodeBeaconData_length bs d hd
  simp only [isValidBeaconPacket, hlen, hd, ne_eq, not_true_eq_false, if_false,
    hla, hlo, jsLtQ, jsGtQ]
  split_ifs with h1 h2 h3 h4 <;>
    simp only [Bool.or_eq_true, decide_eq_true_eq] at * <;>
    constructor <;> intro hc
  · simp at hc
  · rcases h1 with h | h <;> [linarith [hc.1]; linarith [hc.2.1]]
  · simp at hc
  · rcases h2 with h | h <;> [linarith [hc.2.2.1]; linarith [hc.2.2.2.1]]
  · simp at hc
  · rcases h3 with h | h <;> omega
  · simp at hc
  · rcases h4 with h | h <;> omega
  · push_neg at h1 h2 h3 h4
    exact ⟨by linarith [h1.1], by linarith [h1.2], by linarith [h2.1], by linarith [h2.2],
      by omega, by omega, by omega⟩
  · trivial

/-- C5 amended, witness: for the low-battery packet the accepted-iff-ranges
equivalence holds at its concrete decoded fields. -/
theorem c5_validator_amended_witness :
    isValidBeaconPacket lowBatPkt = true ↔
      (-90 ≤ (0 : ℚ) ∧ (0 : ℚ) ≤ 90 ∧ -180 ≤ (0 : ℚ) ∧ (0 : ℚ) ≤ 180 ∧ (80 : ℕ) ≤ 100
        ∧ -500 ≤ (0 : ℤ) ∧ (0 : ℤ) ≤ 9000) :=
  c5_validator_amended lowBatPkt _ 0 0 decode_lowBatPkt rfl rfl

/-- Helper: with at least four device-id bytes, the packet field is their
prefix of four. -/
theorem deviceIdField_of_long (b : List ℕ) (hb : 4 ≤ b.length) :
    deviceIdField b = b.take 4 := by
  match b with
  | [] => simp at hb
  | [_] => simp at hb
  | [_, _] => simp at hb
  | [_, _, _] => simp at hb
  | b0 :: b1 :: b2 :: b3 :: rest => simp [deviceIdField]

/-- Helper: with fewer than four device-id bytes, the packet field is the
buffer at offset 0 followed by zeros. -/
theorem deviceIdField_of_short (b : List ℕ) (hb : b.length < 4) :
    deviceIdField b = b ++ List.replicate (4 - b.length) 0 := by
  match b with
  | [] => rfl
  | [_] => rfl
  | [_, _] => rfl
  | [_, _, _] => rfl
  | b0 :: b1 :: b2 :: b3 :: rest => simp at hb; omega

/-- C10: whenever the rounded altitudes fit the signed 16-bit wire range and
the rounded timestamp is non-negative, the encoder returns (without
raising) a buffer of exactly 20 bytes whose first four bytes are the
device-id field: the first four bytes of a long device id, or a short
device id at offset 0 padded with zeros. -/
theorem c10_encode_total_20_bytes (x : EncoderInput)
    (h1 : -32768 ≤ jsRound x.altitudeMSL) (h2 : jsRound x.altitudeMSL ≤ 32767)
    (h3 : -32768 ≤ jsRound x.relativeAltitude) (h4 : jsRound x.relativeAltitude ≤ 32767)
    (h5 : 0 ≤ jsRound x.timestamp) :
    ∃ bs, encodeBeaconData x = some bs ∧ bs.length = 20
      ∧ bs.take 4 = deviceIdField (deviceIdBuffer x.deviceId)
      ∧ (4 ≤ (deviceIdBuffer x.deviceId).length →
          bs.take 4 = (deviceIdBuffer x.deviceId).take 4)
      ∧ ((deviceIdBuffer x.deviceId).length < 4 →
          bs.take 4 = deviceIdBuffer x.deviceId
            ++ List.replicate (4 - (deviceIdBuffer x.deviceId).length) 0) := by
  have hcond : -32768 ≤ jsRound x.altitudeMSL ∧ jsRound x.altitudeMSL ≤ 32767
      ∧ -32768 ≤ jsRound x.relativeAltitude ∧ jsRound x.relativeAltitude ≤ 32767
      ∧ 0 ≤ min 65535 (jsRound x.timestamp) :=
    ⟨h1, h2, h3, h4, le_min (by norm_num) h5⟩
  simp only [encodeBeaconData]
  rw [if_pos hcond]
  refine ⟨_, rfl, ?_, ?_, ?_, ?_⟩
  · simp [deviceIdField, toBytes4, toBytes2]
  · simp [deviceIdField, toBytes4]
  · intro hlong
    rw [show (deviceIdField (deviceIdBuffer x.deviceId) ++ toBytes4 (f32bitsOfNum x.latitude)
        ++ toBytes4 (f32bitsOfNum x.longitude) ++ toBytes2 (int16ToUNat (jsRound x.altitudeMSL))
        ++ toBytes2 (int16ToUNat (jsRound x.relativeAltitude))
        ++ [(min 100 (max 0 (jsRound x.battery))).toNat]
        ++ toBytes2 (min 65535 (jsRound x.timestamp)).toNat
        ++ [flagsByteOf x]).take 4 = deviceIdField (deviceIdBuffer x.deviceId) from by
      simp [deviceIdField, toBytes4]]
    exact deviceIdField_of_long _ hlong
  · intro hshort
    rw [show (deviceIdField (deviceIdBuffer x.deviceId) ++ toBytes4 (f32bitsOfNum x.latitude)
        ++ toBytes4 (f32bitsOfNum x.longitude) ++ toBytes2 (int16ToUNat (jsRound x.altitudeMSL))
        ++ toBytes2 (int16ToUNat (jsRound x.relativeAltitude))
        ++ [(min 100 (max 0 (jsRound x.battery))).toNat]
        ++ toBytes2 (min 65535 (jsRound x.timestamp)).toNat
        ++ [flagsByteOf x]).take 4 = deviceIdField (deviceIdBuffer x.deviceId) from by
      simp [deviceIdField, toBytes4]]
    exact deviceIdField_of_short _ hshort

/-- C10, witness: the all-zero input encodes to a 20-byte packet with the
stated device-id layout. -/
theorem c10_encode_total_20_bytes_witness :
    ∃ bs, encodeBeaconData baseInput = some bs ∧ bs.length = 20
      ∧ bs.take 4 = deviceIdField (deviceIdBuffer baseInput.deviceId)
      ∧ (4 ≤ (deviceIdBuffer baseInput.deviceId).length →
          bs.take 4 = (deviceIdBuffer baseInput.deviceId).take 4)
      ∧ ((deviceIdBuffer baseInput.deviceId).length < 4 →
          bs.take 4 = deviceIdBuffer baseInput.deviceId
            ++ List.replicate (4 - (deviceIdBuffer baseInput.deviceId).length) 0) :=
  c10_encode_total_20_bytes baseInput
    (by norm_num [jsRound, baseInput]) (by norm_num [jsRound, baseInput])
    (by norm_num [jsRound, baseInput]) (by norm_num [jsRound, baseInput])
    (by norm_num [jsRound, baseInput])

/-- Helper: rounding-to-even of an integer is itself. -/
theorem rne_intCast (n : ℤ) : rne (n : ℚ) = n := by
  simp only [rne, Int.floor_intCast]
  norm_num

/-- Helper: rounding-to-even of a natural number is itself. -/
theorem rne_natCast (n : ℕ) : rne (n : ℚ) = n := by
  have h : ((n : ℕ) : ℚ) = ((n : ℤ) : ℚ) := by push_cast; ring
  rw [h, rne_intCast]

/-- Helper: `Math.round` of an integer is itself. -/
theorem jsRound_intCast (n : ℤ) : jsRound (n : ℚ) = n := by
  simp only [jsRound]
  rw [add_comm, Int.floor_add_int]
  norm_num

/-- Helper: `Math.round` of a natural number is itself. -/
theorem jsRound_natCast (n : ℕ) : jsRound (n : ℚ) = n := by
  have h : ((n : ℕ) : ℚ) = ((n : ℤ) : ℚ) := by push_cast; ring
  rw [h, jsRound_intCast]

/-- Helper: rounding-to-even respects a strict integer upper bound. -/
theorem rne_le_of_lt (x : ℚ) (B : ℤ) (h : x < B) : rne x ≤ B := by
  have hf : ⌊x⌋ < B := Int.floor_lt.mpr h
  simp only [rne]
  split_ifs <;> omega

/-- Helper: rounding-to-even of a nonnegative value is nonnegative. -/
theorem rne_nonneg (x : ℚ) (h : 0 ≤ x) : 0 ≤ rne x := by
  have hf : 0 ≤ ⌊x⌋ := Int.floor_nonneg.mpr h
  simp only [rne]
  split_ifs <;> omega

/-- Helper: the base-two integer logarithm is characterized by its
sandwich. -/
theorem intLog2_unique (m : ℚ) (c : ℤ) (h1 : ((2 : ℕ) : ℚ) ^ c ≤ m)
    (h2 : m < ((2 : ℕ) : ℚ) ^ (c + 1)) : Int.log 2 m = c := by
  have hm : 0 < m := lt_of_lt_of_le (zpow_pos (by norm_num) c) h1
  have ha : c ≤ Int.log 2 m := (Int.zpow_le_iff_le_log (by norm_num) hm).mp h1
  have hb : Int.log 2 m < c + 1 := (Int.lt_zpow_iff_log_lt (by norm_num) hm).mp h2
  omega

/-- Helper: the scaled significand before rounding is below 2²⁴. -/
theorem f32_scaled_lt (m : ℚ) (hm : 0 < m) :
    m * (2 : ℚ) ^ ((23 : ℤ) - max (Int.log 2 m) (-126)) < ((2 ^ 24 : ℤ) : ℚ) := by
  have hcast : ((2 : ℕ) : ℚ) = (2 : ℚ) := by norm_num
  have hup : m < (2 : ℚ) ^ (Int.log 2 m + 1) := by
    have := Int.lt_zpow_succ_log_self (b := 2) (by norm_num) m
    rwa [hcast] at this
  rcases le_or_lt (-126) (Int.log 2 m) with hL | hL
  · rw [max_eq_left hL]
    calc m * (2 : ℚ) ^ ((23 : ℤ) - Int.log 2 m)
        < (2 : ℚ) ^ (Int.log 2 m + 1) * (2 : ℚ) ^ ((23 : ℤ) - Int.log 2 m) :=
          mul_lt_mul_of_pos_right hup (zpow_pos (by norm_num) _)
      _ = (2 : ℚ) ^ ((24 : ℤ)) := by
          rw [← zpow_add₀ (by norm_num : (2 : ℚ) ≠ 0)]
          ring_nf
      _ = ((2 ^ 24 : ℤ) : ℚ) := by norm_num
  · rw [max_eq_right (le_of_lt hL)]
    have hup2 : m < (2 : ℚ) ^ (-(126 : ℤ)) := by
      calc m < (2 : ℚ) ^ (Int.log 2 m + 1) := hup
        _ ≤ (2 : ℚ) ^ (-(126 : ℤ)) := by
            apply zpow_le_zpow_right₀ (by norm_num)
            omega
    calc m * (2 : ℚ) ^ ((23 : ℤ) - (-126)) < (2 : ℚ) ^ (-(126 : ℤ)) * (2 : ℚ) ^ ((23 : ℤ) - (-126)) :=
          mul_lt_mul_of_pos_right hup2 (zpow_pos (by norm_num) _)
      _ = (2 : ℚ) ^ ((23 : ℤ)) := by
          rw [← zpow_add₀ (by norm_num : (2 : ℚ) ≠ 0)]
          ring_nf
      _ < (2 : ℚ) ^ ((24 : ℤ)) := by norm_num
      _ = ((2 ^ 24 : ℤ) : ℚ) := by norm_num

/-- Helper: the four possible shapes of the sign-free binary32 pattern of a
positive rational: underflow to zero, a denormal mantissa, a normal
pattern with biased exponent in [1, 254], or overflow to infinity. -/
theorem f32corePos_spec (m : ℚ) (hm : 0 < m) :
    f32corePos m = 0
    ∨ (∃ mf : ℕ, 1 ≤ mf ∧ mf < 2 ^ 23 ∧ f32corePos m = mf)
    ∨ (∃ ef mf : ℕ, 1 ≤ ef ∧ ef ≤ 254 ∧ mf < 2 ^ 23 ∧ f32corePos m = ef * 2 ^ 23 + mf)
    ∨ f32corePos m = 255 * 2 ^ 23 := by
  have he : -126 ≤ max (Int.log 2 m) (-126) := le_max_right _ _
  have hsc : 0 < m * (2 : ℚ) ^ ((23 : ℤ) - max (Int.log 2 m) (-126)) :=
    mul_pos hm (zpow_pos (by norm_num) _)
  have hn0 : 0 ≤ rne (m * (2 : ℚ) ^ ((23 : ℤ) - max (Int.log 2 m) (-126))) :=
    rne_nonneg _ (le_of_lt hsc)
  have hn24 : rne (m * (2 : ℚ) ^ ((23 : ℤ) - max (Int.log 2 m) (-126))) ≤ 2 ^ 24 :=
    rne_le_of_lt _ _ (f32_scaled_lt m hm)
  simp only [f32corePos]
  set L := max (Int.log 2 m) (-126) with hLdef
  set n := rne (m * (2 : ℚ) ^ ((23 : ℤ) - L)) with hndef
  split_ifs with h1 h2 h3 h4 h5
  · exact Or.inl rfl
  · exact Or.inr (Or.inl ⟨n.toNat, by omega, by omega, rfl⟩)
  · exact Or.inr (Or.inr (Or.inr rfl))
  · refine Or.inr (Or.inr (Or.inl ⟨(L + 1 + 127).toNat, ((2 ^ 23 : ℤ) - 2 ^ 23).toNat,
      ?_, ?_, ?_, ?_⟩))
    · omega
    · omega
    · omega
    · rfl
  · exact Or.inr (Or.inr (Or.inr rfl))
  · exact Or.inr (Or.inr (Or.inl ⟨(L + 127).toNat, (n - 2 ^ 23).toNat,
      by omega, by omega, by omega, rfl⟩))

/-- Helper: the sign-free pattern of a positive rational fits in 31 bits. -/
theorem f32corePos_lt (m : ℚ) (hm : 0 < m) : f32corePos m < 2 ^ 31 := by
  rcases f32corePos_spec m hm with h | ⟨mf, h1, h2, h3⟩ | ⟨ef, mf, h1, h2, h3, h4⟩ | h <;>
    omega

/-- Helper: every bit pattern the encoder writes fits in 32 bits. -/
theorem f32bitsOfNum_lt (n : JsNum) : f32bitsOfNum n < 2 ^ 32 := by
  cases n with
  | fin q =>
    simp only [f32bitsOfNum]
    split_ifs with h1 h2
    · norm_num
    · have := f32corePos_lt q h2
      omega
    · have hq : 0 < -q := by
        rcases lt_trichotomy q 0 with h | h | h
        · linarith
        · exact absurd h h1
        · exact absurd h h2
      have := f32corePos_lt (-q) hq
      omega
  | negzero => norm_num [f32bitsOfNum]
  | inf neg => cases neg <;> norm_num [f32bitsOfNum]
  | nan => norm_num [f32bitsOfNum]

/-- Helper: the binary32 pattern of a denormal value is reproduced
exactly. -/
theorem f32corePos_denormal (mf : ℕ) (h1 : 1 ≤ mf) (hmf : mf < 2 ^ 23) :
    f32corePos ((mf : ℚ) * (2 : ℚ) ^ (-(149 : ℤ))) = mf := by
  have hm : 0 < (mf : ℚ) * (2 : ℚ) ^ (-(149 : ℤ)) :=
    mul_pos (by exact_mod_cast h1) (zpow_pos (by norm_num) _)
  have hup : (mf : ℚ) * (2 : ℚ) ^ (-(149 : ℤ)) < ((2 : ℕ) : ℚ) ^ (-(126 : ℤ)) := by
    have hc : ((2 : ℕ) : ℚ) = (2 : ℚ) := by norm_num
    rw [hc]
    calc (mf : ℚ) * (2 : ℚ) ^ (-(149 : ℤ))
        < ((2 ^ 23 : ℕ) : ℚ) * (2 : ℚ) ^ (-(149 : ℤ)) :=
          mul_lt_mul_of_pos_right (by exact_mod_cast hmf) (zpow_pos (by norm_num) _)
      _ = (2 : ℚ) ^ ((23 : ℤ)) * (2 : ℚ) ^ (-(149 : ℤ)) := by norm_num
      _ = (2 : ℚ) ^ (-(126 : ℤ)) := by
          rw [← zpow_add₀ (by norm_num : (2 : ℚ) ≠ 0)]
          norm_num
  have hlog : Int.log 2 ((mf : ℚ) * (2 : ℚ) ^ (-(149 : ℤ))) < -126 :=
    (Int.lt_zpow_iff_log_lt (by norm_num) hm).mp hup
  have hmax : max (Int.log 2 ((mf : ℚ) * (2 : ℚ) ^ (-(149 : ℤ)))) (-126) = -126 :=
    max_eq_right (by omega)
  have hexp : (-(149 : ℤ)) + ((23 : ℤ) - (-126)) = 0 := by ring
  have hscaled : (mf : ℚ) * (2 : ℚ) ^ (-(149 : ℤ)) * (2 : ℚ) ^ ((23 : ℤ) - (-126))
      = ((mf : ℕ) : ℚ) := by
    rw [mul_assoc, ← zpow_add₀ (by norm_num : (2 : ℚ) ≠ 0), hexp, zpow_zero, mul_one]
  simp only [f32corePos, hmax, hscaled, rne_natCast]
  split_ifs with hc1 hc2 <;> omega

/-- Helper: the binary32 pattern of a normal value is reproduced exactly. -/
theorem f32corePos_normal (ef mf : ℕ) (he1 : 1 ≤ ef) (he2 : ef ≤ 254) (hmf : mf < 2 ^ 23) :
    f32corePos (((2 ^ 23 + mf : ℕ) : ℚ) * (2 : ℚ) ^ ((ef : ℤ) - 150)) = ef * 2 ^ 23 + mf := by
  have hm : 0 < ((2 ^ 23 + mf : ℕ) : ℚ) * (2 : ℚ) ^ ((ef : ℤ) - 150) :=
    mul_pos (by positivity) (zpow_pos (by norm_num) _)
  have hc : ((2 : ℕ) : ℚ) = (2 : ℚ) := by norm_num
  have hlow : ((2 : ℕ) : ℚ) ^ ((ef : ℤ) - 127) ≤ ((2 ^ 23 + mf : ℕ) : ℚ) * (2 : ℚ) ^ ((ef : ℤ) - 150) := by
    rw [hc]
    calc (2 : ℚ) ^ ((ef : ℤ) - 127)
        = (2 : ℚ) ^ ((23 : ℤ)) * (2 : ℚ) ^ ((ef : ℤ) - 150) := by
          rw [← zpow_add₀ (by norm_num : (2 : ℚ) ≠ 0)]
          congr 1
          ring
      _ ≤ ((2 ^ 23 + mf : ℕ) : ℚ) * (2 : ℚ) ^ ((ef : ℤ) - 150) := by
          apply mul_le_mul_of_nonneg_right _ (le_of_lt (zpow_pos (by norm_num) _))
          have h23 : (2 : ℚ) ^ ((23 : ℤ)) = ((2 ^ 23 : ℕ) : ℚ) := by norm_num
          rw [h23]
          exact_mod_cast Nat.le_add_right _ _
  have hup : ((2 ^ 23 + mf : ℕ) : ℚ) * (2 : ℚ) ^ ((ef : ℤ) - 150)
      < ((2 : ℕ) : ℚ) ^ (((ef : ℤ) - 127) + 1) := by
    rw [hc]
    calc ((2 ^ 23 + mf : ℕ) : ℚ) * (2 : ℚ) ^ ((ef : ℤ) - 150)
        < ((2 ^ 24 : ℕ) : ℚ) * (2 : ℚ) ^ ((ef : ℤ) - 150) := by
          apply mul_lt_mul_of_pos_right _ (zpow_pos (by norm_num) _)
          exact_mod_cast by omega
      _ = (2 : ℚ) ^ ((24 : ℤ)) * (2 : ℚ) ^ ((ef : ℤ) - 150) := by norm_num
      _ = (2 : ℚ) ^ (((ef : ℤ) - 127) + 1) := by
          rw [← zpow_add₀ (by norm_num : (2 : ℚ) ≠ 0)]
          congr 1
          ring
  have hlog : Int.log 2 (((2 ^ 23 + mf : ℕ) : ℚ) * (2 : ℚ) ^ ((ef : ℤ) - 150))
      = (ef : ℤ) - 127 := intLog2_unique _ _ hlow hup
  have hmax : max (Int.log 2 (((2 ^ 23 + mf : ℕ) : ℚ) * (2 : ℚ) ^ ((ef : ℤ) - 150))) (-126)
      = (ef : ℤ) - 127 := by
    rw [hlog]
    exact max_eq_left (by omega)
  have hexp : ((ef : ℤ) - 150) + ((23 : ℤ) - ((ef : ℤ) - 127)) = 0 := by ring
  have hscaled : ((2 ^ 23 + mf : ℕ) : ℚ) * (2 : ℚ) ^ ((ef : ℤ) - 150)
      * (2 : ℚ) ^ ((23 : ℤ) - ((ef : ℤ) - 127)) = ((2 ^ 23 + mf : ℕ) : ℚ) := by
    rw [mul_assoc, ← zpow_add₀ (by norm_num : (2 : ℚ) ≠ 0), hexp, zpow_zero, mul_one]
  simp only [f32corePos, hmax, hscaled, rne_natCast]
  split_ifs with hc1 hc2 hc3 hc4 <;> omega

/-- Helper: re-encoding the decoded value of an encoded float reproduces the
same 32-bit pattern (the encoder's image is stable under decode–encode). -/
theorem f32bits_stable (n : JsNum) :
    f32bitsOfNum (f32valOfBits (f32bitsOfNum n)) = f32bitsOfNum n := by
  cases n with
  | nan => norm_num [f32bitsOfNum, f32valOfBits]
  | inf neg => cases neg <;> norm_num [f32bitsOfNum, f32valOfBits]
  | negzero => norm_num [f32bitsOfNum, f32valOfBits]
  | fin q =>
    by_cases hq0 : q = 0
    · subst hq0
      simp [f32bitsOfNum, f32valOfBits_zero]
    by_cases hqpos : 0 < q
    · have hbits : f32bitsOfNum (.fin q) = f32corePos q := by
        simp [f32bitsOfNum, hq0, hqpos]
      rw [hbits]
      rcases f32corePos_spec q hqpos with h | ⟨mf, h1, h2, h3⟩ | ⟨ef, mf, h1, h2, h3, h4⟩ | h
      · rw [h, f32valOfBits_zero]
        simp [f32bitsOfNum]
      · rw [h3]
        have hs : mf / 2 ^ 31 % 2 = 0 := by omega
        have hef : mf / 2 ^ 23 % 256 = 0 := by omega
        have hmm : mf % 2 ^ 23 = mf := by omega
        have hval : f32valOfBits mf = .fin ((mf : ℚ) * (2 : ℚ) ^ (-(149 : ℤ))) := by
          simp only [f32valOfBits, hs, hef, hmm]
          norm_num
        rw [hval]
        have hpos : (0 : ℚ) < (mf : ℚ) * (2 : ℚ) ^ (-(149 : ℤ)) :=
          mul_pos (by exact_mod_cast h1) (zpow_pos (by norm_num) _)
        simp only [f32bitsOfNum]
        rw [if_neg hpos.ne', if_pos hpos]
        exact f32corePos_denormal mf h1 h2
      · rw [h4]
        have hs : (ef * 2 ^ 23 + mf) / 2 ^ 31 % 2 = 0 := by omega
        have hef : (ef * 2 ^ 23 + mf) / 2 ^ 23 % 256 = ef := by omega
        have hmm : (ef * 2 ^ 23 + mf) % 2 ^ 23 = mf := by omega
        have hval : f32valOfBits (ef * 2 ^ 23 + mf)
            = .fin (((2 ^ 23 + mf : ℕ) : ℚ) * (2 : ℚ) ^ ((ef : ℤ) - 150)) := by
          simp only [f32valOfBits, hs, hef, hmm]
          rw [if_neg (by omega : ¬ef = 255)]
          simp only [if_neg (by omega : ¬ef = 0)]
          norm_num
        rw [hval]
        have hpos : (0 : ℚ) < ((2 ^ 23 + mf : ℕ) : ℚ) * (2 : ℚ) ^ ((ef : ℤ) - 150) :=
          mul_pos (by positivity) (zpow_pos (by norm_num) _)
        simp only [f32bitsOfNum]
        rw [if_neg hpos.ne', if_pos hpos]
        exact f32corePos_normal ef mf h1 h2 h3
      · rw [h]
        norm_num [f32bitsOfNum, f32valOfBits]
    · have hqneg : q < 0 := by
        rcases lt_trichotomy q 0 with h | h | h
        · exact h
        · exact absurd h hq0
        · exact absurd h hqpos
      have hbits : f32bitsOfNum (.fin q) = 2 ^ 31 + f32corePos (-q) := by
        simp [f32bitsOfNum, hq0, hqpos]
      rw [hbits]
      have hq' : 0 < -q := by linarith
      rcases f32corePos_spec (-q) hq' with h | ⟨mf, h1, h2, h3⟩ | ⟨ef, mf, h1, h2, h3, h4⟩ | h
      · rw [h]
        norm_num [f32bitsOfNum, f32valOfBits]
      · rw [h3]
        have hs : (2 ^ 31 + mf) / 2 ^ 31 % 2 = 1 := by omega
        have hef : (2 ^ 31 + mf) / 2 ^ 23 % 256 = 0 := by omega
        have hmm : (2 ^ 31 + mf) % 2 ^ 23 = mf := by omega
        have hmagne : ¬(mf : ℚ) * (2 : ℚ) ^ (-(149 : ℤ)) = 0 :=
          (mul_pos (by exact_mod_cast h1 : (0 : ℚ) < mf) (zpow_pos (by norm_num) _)).ne'
        have hval : f32valOfBits (2 ^ 31 + mf)
            = .fin (-((mf : ℚ) * (2 : ℚ) ^ (-(149 : ℤ)))) := by
          simp only [f32valOfBits, hs, hef, hmm]
          simp [hmagne]
          exact ⟨by omega, by positivity⟩
        rw [hval]
        have hpos : (0 : ℚ) < (mf : ℚ) * (2 : ℚ) ^ (-(149 : ℤ)) :=
          mul_pos (by exact_mod_cast h1) (zpow_pos (by norm_num) _)
        simp only [f32bitsOfNum]
        rw [if_neg (by linarith : ¬-((mf : ℚ) * (2 : ℚ) ^ (-(149 : ℤ))) = 0),
          if_neg (by linarith : ¬(0 : ℚ) < -((mf : ℚ) * (2 : ℚ) ^ (-(149 : ℤ)))), neg_neg]
        rw [f32corePos_denormal mf h1 h2]
      · rw [h4]
        have hs : (2 ^ 31 + (ef * 2 ^ 23 + mf)) / 2 ^ 31 % 2 = 1 := by omega
        have hef : (2 ^ 31 + (ef * 2 ^ 23 + mf)) / 2 ^ 23 % 256 = ef := by omega
        have hmm : (2 ^ 31 + (ef * 2 ^ 23 + mf)) % 2 ^ 23 = mf := by omega
        have hmagne : ¬((2 ^ 23 + mf : ℕ) : ℚ) * (2 : ℚ) ^ ((ef : ℤ) - 150) = 0 :=
          (mul_pos (by positivity : (0 : ℚ) < ((2 ^ 23 + mf : ℕ) : ℚ))
            (zpow_pos (by norm_num) _)).ne'
        have hval : f32valOfBits (2 ^ 31 + (ef * 2 ^ 23 + mf))
            = .fin (-(((2 ^ 23 + mf : ℕ) : ℚ) * (2 : ℚ) ^ ((ef : ℤ) - 150))) := by
          simp only [f32valOfBits, hs, hef, hmm]
          rw [if_neg (by omega : ¬ef = 255)]
          simp only [if_neg (by omega : ¬ef = 0)]
          simp [hmagne]
          exact ⟨by positivity, by positivity⟩
        rw [hval]
        have hpos : (0 : ℚ) < ((2 ^ 23 + mf : ℕ) : ℚ) * (2 : ℚ) ^ ((ef : ℤ) - 150) :=
          mul_pos (by positivity) (zpow_pos (by norm_num) _)
        simp only [f32bitsOfNum]
        rw [if_neg (by linarith : ¬-(((2 ^ 23 + mf : ℕ) : ℚ) * (2 : ℚ) ^ ((ef : ℤ) - 150)) = 0),
          if_neg (by linarith :
            ¬(0 : ℚ) < -(((2 ^ 23 + mf : ℕ) : ℚ) * (2 : ℚ) ^ ((ef : ℤ) - 150))), neg_neg]
        rw [f32corePos_normal ef mf h1 h2 h3]
      · rw [h]
        norm_num [f32bitsOfNum, f32valOfBits]

/-- Helper: big-endian 4-byte serialization round-trips below 2³². -/
theorem reassemble4 (w : ℕ) (hw : w < 2 ^ 32) :
    w / 2 ^ 24 % 256 * 2 ^ 24 + w / 2 ^ 16 % 256 * 2 ^ 16 + w / 2 ^ 8 % 256 * 2 ^ 8 + w % 256
      = w := by
  omega

/-- Helper: big-endian 2-byte serialization round-trips below 2¹⁶. -/
theorem reassemble2 (w : ℕ) (hw : w < 2 ^ 16) :
    w / 2 ^ 8 % 256 * 2 ^ 8 + w % 256 = w := by
  omega

/-- Helper: a signed 16-bit value survives the two's-complement write and
read. -/
theorem readInt16_int16ToUNat (v : ℤ) (h1 : -32768 ≤ v) (h2 : v ≤ 32767) :
    readInt16 (int16ToUNat v) = v := by
  simp only [readInt16, int16ToUNat]
  split_ifs <;> omega

/-- Helper: the two's-complement image lies below 2¹⁶. -/
theorem int16ToUNat_lt (v : ℤ) : int16ToUNat v < 2 ^ 16 := by
  simp only [int16ToUNat]
  omega

/-- Helper: the decoder's six bit tests on the encoder's flags byte recover
the six encoded booleans. -/
theorem flags_decode (x : EncoderInput) :
    decide (flagsByteOf x &&& FLAGS.MOTION_DETECTED ≠ 0) = x.motionDetected
    ∧ decide (flagsByteOf x &&& FLAGS.IS_CHARGING ≠ 0) = x.isCharging
    ∧ decide (flagsByteOf x &&& FLAGS.SOS_ACTIVATED ≠ 0) = x.sosActivated
    ∧ decide (flagsByteOf x &&& FLAGS.LOW_BATTERY ≠ 0) = x.lowBattery
    ∧ decide (flagsByteOf x &&& FLAGS.GPS_VALID ≠ 0) = x.gpsValid
    ∧ decide (flagsByteOf x &&& FLAGS.STATIONARY ≠ 0) = x.stationary := by
  unfold flagsByteOf FLAGS.MOTION_DETECTED FLAGS.IS_CHARGING FLAGS.SOS_ACTIVATED
    FLAGS.LOW_BATTERY FLAGS.GPS_VALID FLAGS.STATIONARY
  cases hm : x.motionDetected <;> cases hc : x.isCharging <;> cases hs : x.sosActivated <;>
    cases hl : x.lowBattery <;> cases hg : x.gpsValid <;> cases hst : x.stationary <;>
      decide

/-- Helper: a hex digit character parses back to its value. -/
theorem hexDigitVal_hexChar : ∀ d < 16, hexDigitVal (hexChar d) = some d := by decide

/-- Helper: hex digit characters are never the colon separator. -/
theorem hexChar_ne_colon : ∀ d < 16, ¬hexChar d = ':' := by decide

/-- Helper: the encoder's hex parse inverts the decoder's device-id
formatting on four bytes. -/
theorem deviceIdBuffer_format (a0 a1 a2 a3 : ℕ) (h0 : a0 < 256) (h1 : a1 < 256)
    (h2 : a2 < 256) (h3 : a3 < 256) :
    deviceIdBuffer (.str (byteToHexChars a0 ++ ':' :: byteToHexChars a1
      ++ ':' :: byteToHexChars a2 ++ ':' :: byteToHexChars a3)) = [a0, a1, a2, a3] := by
  have n0 : ¬hexChar (a0 / 16) = ':' := hexChar_ne_colon _ (by omega)
  have n1 : ¬hexChar (a0 % 16) = ':' := hexChar_ne_colon _ (by omega)
  have n2 : ¬hexChar (a1 / 16) = ':' := hexChar_ne_colon _ (by omega)
  have n3 : ¬hexChar (a1 % 16) = ':' := hexChar_ne_colon _ (by omega)
  have n4 : ¬hexChar (a2 / 16) = ':' := hexChar_ne_colon _ (by omega)
  have n5 : ¬hexChar (a2 % 16) = ':' := hexChar_ne_colon _ (by omega)
  have n6 : ¬hexChar (a3 / 16) = ':' := hexChar_ne_colon _ (by omega)
  have n7 : ¬hexChar (a3 % 16) = ':' := hexChar_ne_colon _ (by omega)
  have d0 : hexDigitVal (hexChar (a0 / 16)) = some (a0 / 16) := hexDigitVal_hexChar _ (by omega)
  have d1 : hexDigitVal (hexChar (a0 % 16)) = some (a0 % 16) := hexDigitVal_hexChar _ (by omega)
  have d2 : hexDigitVal (hexChar (a1 / 16)) = some (a1 / 16) := hexDigitVal_hexChar _ (by omega)
  have d3 : hexDigitVal (hexChar (a1 % 16)) = some (a1 % 16) := hexDigitVal_hexChar _ (by omega)
  have d4 : hexDigitVal (hexChar (a2 / 16)) = some (a2 / 16) := hexDigitVal_hexChar _ (by omega)
  have d5 : hexDigitVal (hexChar (a2 % 16)) = some (a2 % 16) := hexDigitVal_hexChar _ (by omega)
  have d6 : hexDigitVal (hexChar (a3 / 16)) = some (a3 / 16) := hexDigitVal_hexChar _ (by omega)
  have d7 : hexDigitVal (hexChar (a3 % 16)) = some (a3 % 16) := hexDigitVal_hexChar _ (by omega)
  simp only [deviceIdBuffer]
  simp [byteToHexChars, List.filter_cons, n0, n1, n2, n3, n4, n5, n6, n7, hexPairs,
    d0, d1, d2, d3, d4, d5, d6, d7]
  omega

/-- Helper: under the range checks, encoding produces exactly `encList`. -/
theorem encode_eq_encList (x : EncoderInput)
    (h1 : -32768 ≤ jsRound x.altitudeMSL) (h2 : jsRound x.altitudeMSL ≤ 32767)
    (h3 : -32768 ≤ jsRound x.relativeAltitude) (h4 : jsRound x.relativeAltitude ≤ 32767)
    (h5 : 0 ≤ jsRound x.timestamp) :
    encodeBeaconData x = some (encList x) := by
  simp only [encodeBeaconData, encList]
  rw [if_pos ⟨h1, h2, h3, h4, le_min (by norm_num) h5⟩]

/-- Helper: decoding the encoder's byte list yields the binary32-quantized
canonical form of the input. -/
theorem decode_encList (x : EncoderInput)
    (h1 : -32768 ≤ jsRound x.altitudeMSL) (h2 : jsRound x.altitudeMSL ≤ 32767)
    (h3 : -32768 ≤ jsRound x.relativeAltitude) (h4 : jsRound x.relativeAltitude ≤ 32767)
    (h5 : 0 ≤ jsRound x.timestamp) :
    decodeBeaconData (encList x) = some (canonicalizeBeacon x) := by
  simp only [encList, deviceIdField, toBytes4, toBytes2, List.cons_append, List.nil_append,
    decodeBeaconData, bufferToDeviceId]
  rw [reassemble4 _ (f32bitsOfNum_lt x.latitude), reassemble4 _ (f32bitsOfNum_lt x.longitude)]
  rw [reassemble2 _ (int16ToUNat_lt (jsRound x.altitudeMSL)),
    reassemble2 _ (int16ToUNat_lt (jsRound x.relativeAltitude))]
  rw [reassemble2 _ (by omega : (min 65535 (jsRound x.timestamp)).toNat < 2 ^ 16)]
  rw [readInt16_int16ToUNat _ h1 h2, readInt16_int16ToUNat _ h3 h4]
  simp only [Option.some.injEq, canonicalizeBeacon, canonicalizeClaim]
  obtain ⟨f1, f2, f3, f4, f5, f6⟩ := flags_decode x
  simp only [BeaconData.mk.injEq, BeaconFlags.mk.injEq, f1, f2, f3, f4, f5, f6]
  simp [bufferToDeviceId, deviceIdField]

/-- Helper: reading with default from a list of bounded bytes stays
bounded. -/
theorem getD_lt_of_all (l : List ℕ) (h : ∀ a ∈ l, a < 256) (i : ℕ) :
    l.getD i 0 < 256 := by
  induction l generalizing i with
  | nil => simp [List.getD]
  | cons a rest ih =>
    cases i with
    | zero => simpa using h a (by simp)
    | succ j => simpa using ih (fun b hb => h b (by simp [hb])) j

/-- Helper: every byte the device-id field carries is below 256. -/
theorem deviceIdBuffer_getD_lt (x : EncoderInput)
    (hdev : ∀ a ∈ deviceIdBuffer x.deviceId, a < 256) (i : ℕ) :
    (deviceIdBuffer x.deviceId).getD i 0 < 256 :=
  getD_lt_of_all _ hdev i

/-- Helper: re-encoding the decoded canonical form reproduces the same
bytes. -/
theorem reencode_encList (x : EncoderInput)
    (h1 : -32768 ≤ jsRound x.altitudeMSL) (h2 : jsRound x.altitudeMSL ≤ 32767)
    (h3 : -32768 ≤ jsRound x.relativeAltitude) (h4 : jsRound x.relativeAltitude ≤ 32767)
    (h5 : 0 ≤ jsRound x.timestamp)
    (hdev : ∀ a ∈ deviceIdBuffer x.deviceId, a < 256) :
    encodeBeaconData (toEncoderInput (canonicalizeBeacon x)) = some (encList x) := by
  have hg0 := deviceIdBuffer_getD_lt x hdev 0
  have hg1 := deviceIdBuffer_getD_lt x hdev 1
  have hg2 := deviceIdBuffer_getD_lt x hdev 2
  have hg3 := deviceIdBuffer_getD_lt x hdev 3
  have hdevstr : deviceIdBuffer (toEncoderInput (canonicalizeBeacon x)).deviceId
      = deviceIdField (deviceIdBuffer x.deviceId) := by
    simp only [toEncoderInput, canonicalizeBeacon, canonicalizeClaim]
    simp only [bufferToDeviceId, deviceIdField, Option.getD_some]
    rw [deviceIdBuffer_format _ _ _ _ hg0 hg1 hg2 hg3]
  have haltv : jsRound (toEncoderInput (canonicalizeBeacon x)).altitudeMSL
      = jsRound x.altitudeMSL := by
    simp only [toEncoderInput, canonicalizeBeacon, canonicalizeClaim]
    exact jsRound_intCast _
  have hrelv : jsRound (toEncoderInput (canonicalizeBeacon x)).relativeAltitude
      = jsRound x.relativeAltitude := by
    simp only [toEncoderInput, canonicalizeBeacon, canonicalizeClaim]
    exact jsRound_intCast _
  have hbatv : min 100 (max 0 (jsRound (toEncoderInput (canonicalizeBeacon x)).battery))
      = min 100 (max 0 (jsRound x.battery)) := by
    simp only [toEncoderInput, canonicalizeBeacon, canonicalizeClaim]
    rw [jsRound_natCast]
    omega
  have htsv : min 65535 (jsRound (toEncoderInput (canonicalizeBeacon x)).timestamp)
      = min 65535 (jsRound x.timestamp) := by
    simp only [toEncoderInput, canonicalizeBeacon, canonicalizeClaim]
    rw [jsRound_natCast]
    omega
  have hlat : f32bitsOfNum (toEncoderInput (canonicalizeBeacon x)).latitude
      = f32bitsOfNum x.latitude := by
    simp only [toEncoderInput, canonicalizeBeacon, canonicalizeClaim]
    exact f32bits_stable x.latitude
  have hlon : f32bitsOfNum (toEncoderInput (canonicalizeBeacon x)).longitude
      = f32bitsOfNum x.longitude := by
    simp only [toEncoderInput, canonicalizeBeacon, canonicalizeClaim]
    exact f32bits_stable x.longitude
  have hflags : flagsByteOf (toEncoderInput (canonicalizeBeacon x)) = flagsByteOf x := by
    simp only [flagsByteOf, toEncoderInput, canonicalizeBeacon, canonicalizeClaim]
  simp only [encodeBeaconData, hdevstr, haltv, hrelv, hbatv, htsv, hlat, hlon, hflags]
  rw [if_pos ⟨h1, h2, h3, h4, le_min (by norm_num) h5⟩]
  simp only [encList, Option.some.injEq]
  simp [deviceIdField]

/-- Helper: `Math.round` of zero is zero. -/
theorem jsRound_zero : jsRound 0 = 0 := by
  rw [show (0 : ℚ) = ((0 : ℤ) : ℚ) by norm_num, jsRound_intCast]

/-- Helper: the binary32 pattern of 2²⁵ + 1 rounds the significand down to
2²³ (ties to even), giving biased exponent 152 and mantissa 0. -/
theorem f32bits_33554433 : f32bitsOfNum (.fin 33554433) = 1275068416 := by
  have hlog : Int.log 2 ((33554433 : ℚ)) = 25 := by
    apply intLog2_unique
    · norm_num
    · norm_num
  have hfl : ⌊(33554433 : ℚ) * (2 : ℚ) ^ ((23 : ℤ) - 25)⌋ = 8388608 := by
    rw [show ((33554433 : ℚ) * (2 : ℚ) ^ ((23 : ℤ) - 25)) = 33554433/4 by norm_num]
    rw [Int.floor_eq_iff] <;> norm_num
  have hrne : rne ((33554433 : ℚ) * (2 : ℚ) ^ ((23 : ℤ) - 25)) = 8388608 := by
    simp only [rne, hfl]
    rw [if_pos]
    rw [show ((33554433 : ℚ) * (2 : ℚ) ^ ((23 : ℤ) - 25)) = 33554433/4 by norm_num]
    norm_num
  have hne : ¬(33554433 : ℚ) = 0 := by norm_num
  have hpos : (0 : ℚ) < 33554433 := by norm_num
  simp only [f32bitsOfNum, if_neg hne, if_pos hpos]
  simp only [f32corePos, hlog]
  rw [show max (25 : ℤ) (-126) = 25 from max_eq_left (by omega)]
  rw [hrne]
  norm_num
  decide

/-- Helper: the pattern with biased exponent 152 and mantissa 0 decodes to
2²⁵. -/
theorem f32val_1275068416 : f32valOfBits 1275068416 = .fin 33554432 := by
  norm_num [f32valOfBits]

/-- C1 amended: for every encoder input meeting the encode contract
(battery in [0, 100], rounded altitudes in the signed 16-bit wire range,
rounded timestamp non-negative, finite latitude/longitude, device-id bytes
in range), encoding succeeds, decoding the bytes yields the canonical form
with latitude and longitude quantized to the nearest IEEE-754 binary32
value, and re-encoding the decoded form reproduces the same 20 bytes. The
battery and finiteness hypotheses come from the claim's contract; the code
round-trips even without them. -/
theorem c1_round_trip_amended (x : EncoderInput) (la lo : ℚ)
    (hla : x.latitude = .fin la) (hlo : x.longitude = .fin lo)
    (hb1 : 0 ≤ x.battery) (hb2 : x.battery ≤ 100)
    (h1 : -32768 ≤ jsRound x.altitudeMSL) (h2 : jsRound x.altitudeMSL ≤ 32767)
    (h3 : -32768 ≤ jsRound x.relativeAltitude) (h4 : jsRound x.relativeAltitude ≤ 32767)
    (h5 : 0 ≤ jsRound x.timestamp)
    (hdev : ∀ a ∈ deviceIdBuffer x.deviceId, a < 256) :
    ∃ bs, encodeBeaconData x = some bs
      ∧ decodeBeaconData bs = some (canonicalizeBeacon x)
      ∧ encodeBeaconData (toEncoderInput (canonicalizeBeacon x)) = some bs :=
  ⟨encList x, encode_eq_encList x h1 h2 h3 h4 h5, decode_encList x h1 h2 h3 h4 h5,
    reencode_encList x h1 h2 h3 h4 h5 hdev⟩

/-- C1 counterexample: for the input with latitude 2²⁵ + 1 = 33554433 (a
finite value, battery and altitudes in range) the decoded round-trip is
not the claim's canonicalization — which rounds only altitudes, battery
and timestamp — but the binary32-quantized latitude 2²⁵: the float field
cannot carry 33554433 exactly. -/
theorem c1_round_trip_claim_cex :
    (encodeBeaconData { baseInput with latitude := JsNum.fin 33554433 }).bind decodeBeaconData
      ≠ some (canonicalizeClaim { baseInput with latitude := JsNum.fin 33554433 })
    ∧ (encodeBeaconData { baseInput with latitude := JsNum.fin 33554433 }).bind decodeBeaconData
      = some { canonicalizeClaim { baseInput with latitude := JsNum.fin 33554433 } with
          latitude := JsNum.fin 33554432 } := by
  have hz1 : -32768 ≤ jsRound ({ baseInput with latitude := JsNum.fin 33554433 }).altitudeMSL := by
    simp [baseInput, jsRound_zero]
  have hz2 : jsRound ({ baseInput with latitude := JsNum.fin 33554433 }).altitudeMSL ≤ 32767 := by
    simp [baseInput, jsRound_zero]
  have hz5 : 0 ≤ jsRound ({ baseInput with latitude := JsNum.fin 33554433 }).timestamp := by
    simp [baseInput, jsRound_zero]
  have he := encode_eq_encList { baseInput with latitude := JsNum.fin 33554433 }
    hz1 hz2 hz1 hz2 hz5
  have hd := decode_encList { baseInput with latitude := JsNum.fin 33554433 }
    hz1 hz2 hz1 hz2 hz5
  have hcanon : canonicalizeBeacon { baseInput with latitude := JsNum.fin 33554433 }
      = { canonicalizeClaim { baseInput with latitude := JsNum.fin 33554433 } with
          latitude := JsNum.fin 33554432 } := by
    simp only [canonicalizeBeacon, canonicalizeClaim, f32bits_33554433, f32val_1275068416]
    simp [baseInput, f32bitsOfNum, f32valOfBits_zero]
  rw [he, Option.some_bind]
  constructor
  · rw [hd, hcanon]
    intro hcontra
    have hlat := congrArg (fun o => (o.getD (canonicalizeBeacon baseInput)).latitude) hcontra
    simp only [Option.getD_some] at hlat
    norm_num [canonicalizeClaim, baseInput] at hlat
  · rw [hd, hcanon]

/-- C1 amended, witness: the round-trip at a concrete in-contract input. -/
theorem c1_round_trip_amended_witness :
    ∃ bs, encodeBeaconData { baseInput with latitude := JsNum.fin 33554433 } = some bs
      ∧ decodeBeaconData bs
        = some (canonicalizeBeacon { baseInput with latitude := JsNum.fin 33554433 })
      ∧ encodeBeaconData
          (toEncoderInput (canonicalizeBeacon { baseInput with latitude := JsNum.fin 33554433 }))
        = some bs :=
  c1_round_trip_amended { baseInput with latitude := JsNum.fin 33554433 } 33554433 0
    rfl rfl (by norm_num [baseInput]) (by norm_num [baseInput])
    (by simp [baseInput, jsRound_zero]) (by simp [baseInput, jsRound_zero])
    (by simp [baseInput, jsRound_zero]) (by simp [baseInput, jsRound_zero])
    (by simp [baseInput, jsRound_zero]) (by simp [baseInput, deviceIdBuffer])

end Phoenix
